import Mathlib

/-!
# Verification of the `zabbix_host` reconciliation module

Shallow embedding of `monitoring/zabbix_host.py` (the `Host` class and the
`main` procedure) and proofs about it.

Modelling conventions:
* The remote Zabbix server is a `Remote` record holding the live hosts and the
  catalogs of existing host groups, templates and proxies, plus fresh-id
  counters for objects the API would allocate.
* An interface dictionary carries the six documented keys
  (`type`, `main`, `useip`, `ip`, `dns`, `port`); a live interface fetched from
  the API additionally carries its `interfaceid`.  The Python code compares
  values through `str(...)`; since both sides of every comparison hold the
  same kind of datum, this is equality of the modelled fields.
* `module.exit_json` / `module.fail_json` terminate the process, so the
  embedded procedures return an `Outcome` (or `Sum` with an `Outcome`) instead
  of raising.  An uncaught Python exception (the module calls
  `link_or_clear_template` with a missing required argument on the creation
  path) is the `Outcome.crashed` constructor.
* Python `set(...)` values are modelled as duplicate-free lists produced by
  `setList`; Python's set iteration order is unspecified, so only
  order-insensitive (set-level) facts are proved about them.
* Every mutating API call is recorded as a `Call` and simultaneously applied
  to the `Remote` by `zapiApply`, which implements the documented Zabbix
  semantics of each request (`host.update` with `templates` replaces the
  linked set, interface requests address interfaces by id, etc.).
-/

/-- A desired interface dictionary: the six documented keys. -/
structure Interface where
  type : Int
  main : Int
  useip : Int
  ip : String
  dns : String
  port : Int
deriving Repr, DecidableEq

/-- A live interface as returned by `hostinterface.get`: the same six keys
plus the server-assigned `interfaceid`. -/
structure LiveInterface where
  interfaceid : Nat
  type : Int
  main : Int
  useip : Int
  ip : String
  dns : String
  port : Int
deriving Repr, DecidableEq

/-- A live host as returned by `host.get` / maintained by the server, with the
group, template and interface links the various `*.get` calls expose. -/
structure LiveHost where
  hostid : Nat
  host : String
  status : Int
  proxy_hostid : String
  groupids : List Nat
  templateids : List Nat
  interfaces : List LiveInterface
deriving Repr, DecidableEq

/-- The remote server state: live hosts plus the catalogs of existing groups
(name, groupid), templates (name, templateid) and proxies (name, proxyid),
and counters for the ids the server would assign to new objects. -/
structure Remote where
  hosts : List LiveHost
  groupCatalog : List (String × Nat)
  templateCatalog : List (String × Nat)
  proxyCatalog : List (String × String)
  nextHostId : Nat
  nextInterfaceId : Nat
deriving Repr, DecidableEq

/-- The module parameters relevant to the reconciliation logic.  `host_groups`,
`link_templates` and `interfaces` default to empty lists (Python `None` and
`[]` are both falsy wherever these are tested); `proxy = none` models an
absent proxy parameter. -/
structure Params where
  host_name : String
  host_groups : List String
  link_templates : List String
  status : String
  state : String
  interfaces : List Interface
  force : Bool
  clear : Bool
  proxy : Option String
  checkMode : Bool
deriving Repr, DecidableEq

/-- Terminal result of one module invocation: `exit_json` (with the `changed`
flag and the `result` message), `fail_json` (with the failure message), or an
uncaught Python exception. -/
inductive Outcome where
  | exited (changed : Bool) (result : String)
  | failed (msg : String)
  | crashed (msg : String)
deriving Repr, DecidableEq

/-- A state-mutating API request issued by the module. -/
inductive Call where
  | hostCreate (host : String) (groupids : List Nat) (status : Int)
      (interfaces : List Interface) (proxy_hostid : String)
  | hostUpdateMain (hostid : Nat) (groupids : List Nat) (status : Int)
      (proxy_hostid : String)
  | hostUpdateTemplates (hostid : Nat) (templates : List Nat)
      (templates_clear : Option (List Nat))
  | ifaceUpdate (interfaceid : Nat) (iface : Interface)
  | ifaceCreate (hostid : Nat) (iface : Interface)
  | ifaceDelete (interfaceids : List Nat)
  | hostDelete (hostid : Nat)
deriving Repr, DecidableEq

/-- Result of a whole run: the terminal outcome, the list of mutating API
calls issued (in order), and the final remote state. -/
structure RunResult where
  outcome : Outcome
  calls : List Call
  remote : Remote
deriving Repr, DecidableEq

/-! ## Catalog lookups (the read-only API queries) -/

/-- `hostgroup.get`/`hostgroup.exists` by name: first catalog entry with the
given name. -/
def lookupGroupId (r : Remote) (name : String) : Option Nat :=
  (r.groupCatalog.find? (fun p => p.1 == name)).map (fun p => p.2)

/-- `template.get {'filter': {'host': t}}`: first catalog entry with the given
name. -/
def lookupTemplateId (r : Remote) (name : String) : Option Nat :=
  (r.templateCatalog.find? (fun p => p.1 == name)).map (fun p => p.2)

/-- `proxy.get {'filter': {'host': p}}`: first catalog entry with the given
name. -/
def lookupProxyId (r : Remote) (name : String) : Option String :=
  (r.proxyCatalog.find? (fun p => p.1 == name)).map (fun p => p.2)

/-- `host.get {'filter': {'host': [name]}}`: first live host with the given
name. -/
def host_get (r : Remote) (host_name : String) : Option LiveHost :=
  r.hosts.find? (fun h => h.host == host_name)

/-- `Host.is_host_exist`: `host.exists {'host': host_name}`. -/
def is_host_exist (r : Remote) (host_name : String) : Bool :=
  (host_get r host_name).isSome

/-- Live host by `hostid` (the `hostids` filter of the read calls). -/
def findHostById (r : Remote) (host_id : Nat) : Option LiveHost :=
  r.hosts.find? (fun h => h.hostid == host_id)

/-- `Host.check_host_group_exist`: fail on the first group name missing from
the server, with the exact message of the Python `fail_json` call. -/
def check_host_group_exist (r : Remote) : List String → Except String Bool
  | [] => .ok true
  | g :: gs =>
    if (lookupGroupId r g).isNone then
      .error ("Hostgroup not found: " ++ g)
    else
      check_host_group_exist r gs

/-- `Host.get_template_ids`: resolve each template name, failing on the first
missing one. -/
def get_template_ids (r : Remote) : List String → Except String (List Nat)
  | [] => .ok []
  | t :: ts =>
    match lookupTemplateId r t with
    | none => .error ("Template not found: " ++ t)
    | some tid =>
      match get_template_ids r ts with
      | .error m => .error m
      | .ok tids => .ok (tid :: tids)

/-- `Host.get_group_ids_by_group_names`: after checking existence, the
`hostgroup.get` name-filter query returns the matching catalog entries (in
server order); the code collects their `groupid`s. -/
def get_group_ids_by_group_names (r : Remote) (group_names : List String) :
    Except String (List Nat) :=
  match check_host_group_exist r group_names with
  | .error m => .error m
  | .ok _ => .ok ((r.groupCatalog.filter (fun p => p.1 ∈ group_names)).map (fun p => p.2))

/-- `Host.get_proxyid_by_proxy_name`. -/
def get_proxyid_by_proxy_name (r : Remote) (proxy_name : String) :
    Except String String :=
  match lookupProxyId r proxy_name with
  | none => .error ("Proxy not found: " ++ proxy_name)
  | some pid => .ok pid

/-- `Host.get_host_templates_by_host_id`: `template.get {'hostids': id}`. -/
def get_host_templates_by_host_id (r : Remote) (host_id : Nat) : List Nat :=
  match findHostById r host_id with
  | none => []
  | some h => h.templateids

/-- `Host.get_host_groups_by_host_id`: `hostgroup.get {'hostids': id}` returns
the group objects linked to the host; the code collects their names. -/
def get_host_groups_by_host_id (r : Remote) (host_id : Nat) : List String :=
  match findHostById r host_id with
  | none => []
  | some h => (r.groupCatalog.filter (fun p => p.2 ∈ h.groupids)).map (fun p => p.1)

/-- `hostinterface.get {'hostids': id}`. -/
def get_host_interfaces (r : Remote) (host_id : Nat) : List LiveInterface :=
  match findHostById r host_id with
  | none => []
  | some h => h.interfaces

/-! ## The difference computation -/

/-- Python `set(a) == set(b)` on lists. -/
def sameSet {α : Type} [DecidableEq α] (a b : List α) : Bool :=
  decide (∀ x ∈ a, x ∈ b) && decide (∀ x ∈ b, x ∈ a)

/-- The inner key loop of `Host.check_interface_properties`:
`str(exist_interface[key]) != str(interface[key])` over the keys of the
desired interface dictionary (its six documented keys). -/
def fieldsMatch (e : LiveInterface) (i : Interface) : Bool :=
  e.type == i.type && e.main == i.main && e.useip == i.useip &&
    e.ip == i.ip && e.dns == i.dns && e.port == i.port

/-- `Host.check_interface_properties`: report a difference when the port sets
differ, or when some live/desired pair with equal ports differs on a key. -/
def check_interface_properties (exist_interface_list : List LiveInterface)
    (interfaces : List Interface) : Bool :=
  let interfaces_port_list := interfaces.map (fun i => i.port)
  let exist_interface_ports := exist_interface_list.map (fun e => e.port)
  if !(sameSet interfaces_port_list exist_interface_ports) then
    true
  else if exist_interface_list.any (fun e =>
      interfaces.any (fun i => i.port == e.port && !(fieldsMatch e i))) then
    true
  else
    false

/-- `Host.get_host_status_by_host`. -/
def get_host_status_by_host (host : LiveHost) : Int :=
  host.status

/-- `Host.check_all_properties`: groups (by name, as sets), status,
interfaces, templates (as sets), proxy. -/
def check_all_properties (r : Remote) (host_id : Nat) (host_groups : List String)
    (status : Int) (interfaces : List Interface) (template_ids : List Nat)
    (exist_interfaces : List LiveInterface) (host : LiveHost)
    (proxy_id : String) : Bool :=
  if !(sameSet host_groups (get_host_groups_by_host_id r host_id)) then
    true
  else if status != get_host_status_by_host host then
    true
  else if check_interface_properties exist_interfaces interfaces then
    true
  else if !(sameSet template_ids (get_host_templates_by_host_id r host_id)) then
    true
  else if host.proxy_hostid != proxy_id then
    true
  else
    false

/-! ## The mutating API -/

/-- Python `set(l)` as a duplicate-free list (first occurrences kept; the set's
actual iteration order is unspecified, so only set-level facts are proved). -/
def setList {α : Type} [DecidableEq α] (l : List α) : List α :=
  l.foldl (fun acc x => if x ∈ acc then acc else acc ++ [x]) []

/-- Overwrite a live interface's six keys with the desired values (the update
request carries the desired dictionary plus the `interfaceid`). -/
def overwriteInterface (e : LiveInterface) (i : Interface) : LiveInterface :=
  { interfaceid := e.interfaceid, type := i.type, main := i.main,
    useip := i.useip, ip := i.ip, dns := i.dns, port := i.port }

/-- A freshly created live interface with a server-assigned id. -/
def mkLiveInterface (iid : Nat) (i : Interface) : LiveInterface :=
  { interfaceid := iid, type := i.type, main := i.main,
    useip := i.useip, ip := i.ip, dns := i.dns, port := i.port }

/-- Server-side interface creation for `host.create`: assign consecutive fresh
ids to the interfaces of the request. -/
def assignInterfaceIds (iid : Nat) : List Interface → List LiveInterface
  | [] => []
  | i :: is => mkLiveInterface iid i :: assignInterfaceIds (iid + 1) is

/-- Execute one mutating API request on the server state. -/
def zapiApply (r : Remote) : Call → Remote
  | .hostCreate name gids st ifaces proxy =>
    let newHost : LiveHost :=
      { hostid := r.nextHostId, host := name, status := st,
        proxy_hostid := proxy, groupids := gids, templateids := [],
        interfaces := assignInterfaceIds r.nextInterfaceId ifaces }
    { r with
      hosts := r.hosts ++ [newHost],
      nextHostId := r.nextHostId + 1,
      nextInterfaceId := r.nextInterfaceId + ifaces.length }
  | .hostUpdateMain hid gids st proxy =>
    { r with hosts := r.hosts.map (fun h =>
        if h.hostid = hid then
          { h with groupids := gids, status := st, proxy_hostid := proxy }
        else h) }
  | .hostUpdateTemplates hid tids _clr =>
    { r with hosts := r.hosts.map (fun h =>
        if h.hostid = hid then { h with templateids := tids } else h) }
  | .ifaceUpdate iid i =>
    { r with hosts := r.hosts.map (fun h =>
        { h with interfaces := h.interfaces.map (fun e =>
            if e.interfaceid = iid then overwriteInterface e i else e) }) }
  | .ifaceCreate hid i =>
    { r with
      hosts := r.hosts.map (fun h =>
        if h.hostid = hid then
          { h with interfaces := h.interfaces ++ [mkLiveInterface r.nextInterfaceId i] }
        else h),
      nextInterfaceId := r.nextInterfaceId + 1 }
  | .ifaceDelete iids =>
    { r with hosts := r.hosts.map (fun h =>
        { h with interfaces := h.interfaces.filter (fun e => e.interfaceid ∉ iids) }) }
  | .hostDelete hid =>
    { r with hosts := r.hosts.filter (fun h => h.hostid ≠ hid) }

/-! ## The mutating procedures of class `Host` -/

/-- `Host.delete_host`: in check mode exit `changed=True` before contacting
the API, otherwise issue `host.delete`. -/
def delete_host (checkMode : Bool) (r : Remote) (host_id : Nat) :
    Outcome ⊕ (List Call × Remote) :=
  if checkMode then
    .inl (.exited true "")
  else
    .inr ([.hostDelete host_id], zapiApply r (.hostDelete host_id))

/-- `Host.add_host`: in check mode exit `changed=True`, otherwise issue
`host.create` and return the new host id.  (`proxy_hostid` is always included:
the default proxy id is the non-empty — hence truthy — string `"0"`.) -/
def add_host (checkMode : Bool) (r : Remote) (host_name : String)
    (group_ids : List Nat) (status : Int) (interfaces : List Interface)
    (proxy_id : String) : Outcome ⊕ (Nat × List Call × Remote) :=
  if checkMode then
    .inl (.exited true "")
  else
    let c := Call.hostCreate host_name group_ids status interfaces proxy_id
    .inr (r.nextHostId, [c], zapiApply r c)

/-- The merge-mode group computation of `Host.update_host` (`clear` false):
re-resolve the host's current group names to ids and append each id not
already in the desired list.  The inner `fail_json` of
`check_host_group_exist` is not caught by the surrounding `try` (it raises
`SystemExit`), so it surfaces as a module failure. -/
def mergeGroups (r : Remote) (host_id : Nat) (group_ids : List Nat) :
    Except String (List Nat) :=
  match get_group_ids_by_group_names r (get_host_groups_by_host_id r host_id) with
  | .error m => .error m
  | .ok exist_ids =>
    .ok (exist_ids.foldl (fun acc g => if g ∈ acc then acc else acc ++ [g]) group_ids)

/-- Find the first live interface in the working list whose `type` equals the
desired one, returning it and the list with that element removed (the Python
`for … if … : …; interface_list_copy.remove(exist_interface); break`). -/
def extractByType : List LiveInterface → Int → Option (LiveInterface × List LiveInterface)
  | [], _ => none
  | e :: es, t =>
    if e.type = t then
      some (e, es)
    else
      match extractByType es t with
      | none => none
      | some (e', es') => some (e', e :: es')

/-- The per-interface loop of `Host.update_host`: for each desired interface,
update the first live interface of the same type (consuming it from the
working list) or create a new one; returns the calls issued, the live
interfaces left unmatched, and the resulting server state. -/
def interfaceSync (host_id : Nat) :
    List Interface → List LiveInterface → Remote →
    (List Call × List LiveInterface × Remote)
  | [], copy, r => ([], copy, r)
  | i :: rest, copy, r =>
    match extractByType copy i.type with
    | some (e, copy') =>
      let c := Call.ifaceUpdate e.interfaceid i
      let res := interfaceSync host_id rest copy' (zapiApply r c)
      (c :: res.1, res.2.1, res.2.2)
    | none =>
      let c := Call.ifaceCreate host_id i
      let res := interfaceSync host_id rest copy (zapiApply r c)
      (c :: res.1, res.2.1, res.2.2)

/-- The deletion step at the end of `Host.update_host`'s interface section:
collect the `interfaceid`s of the live interfaces left unmatched by the loop
and, when there is at least one, issue a single `hostinterface.delete`. -/
def deleteLeftover (res : List Call × List LiveInterface × Remote) :
    List Call × Remote :=
  if (res.2.1.map (fun e => e.interfaceid)).length > 0 then
    (res.1 ++ [Call.ifaceDelete (res.2.1.map (fun e => e.interfaceid))],
      zapiApply res.2.2 (Call.ifaceDelete (res.2.1.map (fun e => e.interfaceid))))
  else
    (res.1, res.2.2)

/-- The interface section of `Host.update_host` (lines guarded by
`if interfaces:`): when a desired interface list was given, run the per-type
loop and then delete the unmatched live interfaces — the `clear` flag is
never consulted here. -/
def update_host_interface_section (host_id : Nat) (interfaces : List Interface)
    (exist_interface_list : List LiveInterface) (r0 : Remote) :
    List Call × Remote :=
  if interfaces.isEmpty then
    ([], r0)
  else
    deleteLeftover (interfaceSync host_id interfaces exist_interface_list r0)

/-- `Host.update_host`: check-mode exit, merge-mode group extension,
`host.update` of groups/status/proxy, then the interface section. -/
def update_host (checkMode : Bool) (r : Remote) (_host_name : String)
    (group_ids : List Nat) (status : Int) (host_id : Nat)
    (interfaces : List Interface) (exist_interface_list : List LiveInterface)
    (proxy_id : String) (clear : Bool) : Outcome ⊕ (List Call × Remote) :=
  if checkMode then
    .inl (.exited true "")
  else
    match (if clear then .ok group_ids else mergeGroups r host_id group_ids) with
    | .error m => .inl (.failed m)
    | .ok gids =>
      .inr (Call.hostUpdateMain host_id gids status proxy_id ::
          (update_host_interface_section host_id interfaces exist_interface_list
            (zapiApply r (Call.hostUpdateMain host_id gids status proxy_id))).1,
        (update_host_interface_section host_id interfaces exist_interface_list
          (zapiApply r (Call.hostUpdateMain host_id gids status proxy_id))).2)

/-- `Host.link_or_clear_template`: build the `host.update` request — with
`clear`, `templates` is the desired set and `templates_clear` the existing
templates outside it; without, `templates` is the union — then exit
`changed=True` in check mode or issue the request. -/
def link_or_clear_template (checkMode : Bool) (r : Remote) (host_id : Nat)
    (template_id_list : List Nat) (clear : Bool) :
    Outcome ⊕ (List Call × Remote) :=
  let exist_template_ids := setList (get_host_templates_by_host_id r host_id)
  let template_ids := setList template_id_list
  let request :=
    if clear then
      Call.hostUpdateTemplates host_id template_ids
        (some (exist_template_ids.filter (fun t => t ∉ template_ids)))
    else
      Call.hostUpdateTemplates host_id
        (setList (exist_template_ids ++ template_ids)) none
  if checkMode then
    .inl (.exited true "")
  else
    .inr ([request], zapiApply r request)

/-! ## The `main` procedure -/

/-- The status conversion of `main`: `enabled` → 0, `disabled` → 1. -/
def statusOf (p : Params) : Int :=
  if p.status = "disabled" then 1 else 0

/-- `main`'s template resolution: `if link_templates: ... get_template_ids`. -/
def resolveTemplates (r : Remote) (p : Params) : Except String (List Nat) :=
  if p.link_templates.isEmpty then .ok [] else get_template_ids r p.link_templates

/-- `main`'s group resolution: `if host_groups: ... get_group_ids_by_group_names`. -/
def resolveGroups (r : Remote) (p : Params) : Except String (List Nat) :=
  if p.host_groups.isEmpty then .ok []
  else get_group_ids_by_group_names r p.host_groups

/-- `main`'s proxy resolution: `proxy_id = "0"` unless a proxy name is given,
in which case it is looked up (failing when absent from the server). -/
def resolveProxy (r : Remote) (p : Params) : Except String String :=
  match p.proxy with
  | none => .ok "0"
  | some pr => get_proxyid_by_proxy_name r pr

/-- The reference-resolution prefix of `main`: templates, then groups, then
proxy; the first failure aborts the run. -/
def resolveAll (r : Remote) (p : Params) :
    Except String (List Nat × List Nat × String) :=
  match resolveTemplates r p with
  | .error m => .error m
  | .ok template_ids =>
    match resolveGroups r p with
    | .error m => .error m
    | .ok group_ids =>
      match resolveProxy r p with
      | .error m => .error m
      | .ok proxy_id => .ok (template_ids, group_ids, proxy_id)

/-- The `ip` display variable of `main`: the `ip` of the last type-1 desired
interface (used only in result messages). -/
def computeIp (interfaces : List Interface) : String :=
  interfaces.foldl (fun acc i => if i.type = 1 then i.ip else acc) ""

/-- The `main` procedure of the module, from reference resolution to the
terminal `exit_json`/`fail_json` (or the uncaught `TypeError` of the creation
path, which calls `link_or_clear_template` without its required `clear`
argument).  Returns the outcome, the mutating calls issued, and the final
server state. -/
def mainRun (p : Params) (r : Remote) : RunResult :=
  match resolveAll r p with
  | .error m => ⟨.failed m, [], r⟩
  | .ok (template_ids, group_ids, proxy_id) =>
    if is_host_exist r p.host_name then
      match host_get r p.host_name with
      | none => ⟨.failed ("Host not found: " ++ p.host_name), [], r⟩
      | some zabbix_host_obj =>
        let host_id := zabbix_host_obj.hostid
        if p.state = "absent" then
          match delete_host p.checkMode r host_id with
          | .inl o => ⟨o, [], r⟩
          | .inr (cs, r') =>
            ⟨.exited true ("Successfully delete host " ++ p.host_name), cs, r'⟩
        else
          if group_ids.isEmpty then
            ⟨.failed ("Specify at least one group for updating host '"
              ++ p.host_name ++ "'."), [], r⟩
          else if !p.force then
            ⟨.failed "Host present, Can't update configuration without force", [], r⟩
          else
            let exist_interfaces := get_host_interfaces r host_id
            if check_all_properties r host_id p.host_groups (statusOf p)
                p.interfaces template_ids exist_interfaces zabbix_host_obj
                proxy_id then
              match link_or_clear_template p.checkMode r host_id template_ids
                  p.clear with
              | .inl o => ⟨o, [], r⟩
              | .inr (cs1, r1) =>
                match update_host p.checkMode r1 p.host_name group_ids
                    (statusOf p) host_id p.interfaces exist_interfaces
                    proxy_id p.clear with
                | .inl o => ⟨o, cs1, r1⟩
                | .inr (cs2, r2) =>
                  ⟨.exited true ("Successfully update host " ++ p.host_name
                    ++ " (" ++ computeIp p.interfaces ++ ")"), cs1 ++ cs2, r2⟩
            else
              ⟨.exited false "", [], r⟩
    else
      if group_ids.isEmpty then
        ⟨.failed ("Specify at least one group for creating host '"
          ++ p.host_name ++ "'."), [], r⟩
      else if p.interfaces.isEmpty then
        ⟨.failed ("Specify at least one interface for creating host '"
          ++ p.host_name ++ "'."), [], r⟩
      else
        match add_host p.checkMode r p.host_name group_ids (statusOf p)
            p.interfaces proxy_id with
        | .inl o => ⟨o, [], r⟩
        | .inr (_host_id, cs, r') =>
          ⟨.crashed "TypeError: link_or_clear_template() takes exactly 4 arguments (3 given)",
            cs, r'⟩

/-! ## Concrete example inputs used by the counterexamples and witnesses -/

/-- An agent-type desired interface. -/
def ifaceAgent : Interface :=
  { type := 1, main := 1, useip := 1, ip := "10.0.0.1", dns := "", port := 10050 }

/-- An SNMP-type desired interface with the same port as `ifaceAgent`. -/
def ifaceSnmp : Interface :=
  { type := 2, main := 1, useip := 1, ip := "10.0.0.1", dns := "", port := 10050 }

/-- The live counterpart of `ifaceAgent`. -/
def liveAgent : LiveInterface :=
  { interfaceid := 100, type := 1, main := 1, useip := 1, ip := "10.0.0.1",
    dns := "", port := 10050 }

/-- The live counterpart of `ifaceSnmp`. -/
def liveSnmp : LiveInterface :=
  { interfaceid := 101, type := 2, main := 1, useip := 1, ip := "10.0.0.1",
    dns := "", port := 10050 }

/-- A live host named `h1` in groups `g1`, `g2` with one agent interface. -/
def exHost : LiveHost :=
  { hostid := 10, host := "h1", status := 0, proxy_hostid := "0",
    groupids := [1, 2], templateids := [], interfaces := [liveAgent] }

/-- A server holding `exHost` and catalogs with groups `g1`, `g2`, template
`t1` and no proxies. -/
def exRemote : Remote :=
  { hosts := [exHost], groupCatalog := [("g1", 1), ("g2", 2)],
    templateCatalog := [("t1", 5)], proxyCatalog := [],
    nextHostId := 11, nextInterfaceId := 200 }

/-- Parameters asking for the absent host `nope` with `state=absent`. -/
def pC1 : Params :=
  { host_name := "nope", host_groups := ["g1"], link_templates := [],
    status := "enabled", state := "absent", interfaces := [ifaceAgent],
    force := true, clear := true, proxy := none, checkMode := false }

/-- Parameters asking for the existing host `h1` with `state=absent`. -/
def pC1b : Params := { pC1 with host_name := "h1" }

/-- Parameters asking to create the absent host `newh` with `state=present`,
one group and one interface. -/
def pC5 : Params :=
  { host_name := "newh", host_groups := ["g1"], link_templates := ["t1"],
    status := "enabled", state := "present", interfaces := [ifaceAgent],
    force := true, clear := true, proxy := none, checkMode := false }

/-- `pC5` without any host group. -/
def pC5nogroup : Params := { pC5 with host_groups := [] }

/-- `pC5` without any interface. -/
def pC5noiface : Params := { pC5 with interfaces := [] }


/-- Merge-mode (`clear=false`) parameters for the existing host `h1`,
desiring only group `g1` while the host is also in `g2`. -/
def pC4 : Params :=
  { host_name := "h1", host_groups := ["g1"], link_templates := [],
    status := "enabled", state := "present", interfaces := [ifaceAgent],
    force := true, clear := false, proxy := none, checkMode := false }

/-- `exHost` with one agent and one SNMP live interface. -/
def exHostC6 : LiveHost := { exHost with interfaces := [liveAgent, liveSnmp] }

/-- `exRemote` holding `exHostC6`. -/
def exRemoteC6 : Remote := { exRemote with hosts := [exHostC6] }

/-- `exHost` linked to template 5. -/
def exHostC3 : LiveHost := { exHost with templateids := [5] }

/-- `exRemote` holding `exHostC3`. -/
def exRemoteC3 : Remote := { exRemote with hosts := [exHostC3] }

/-- The calls of the C6 witness run. -/
def csC6w : List Call :=
  [Call.hostUpdateMain 10 [9] 0 "0", Call.ifaceCreate 10 ifaceAgent,
    Call.ifaceDelete [101]]

/-- The host of the C6 witness run after the update. -/
def hostC6w : LiveHost :=
  { exHostC3 with
    groupids := [9],
    interfaces := [liveAgent, mkLiveInterface 200 ifaceAgent] }

/-- The final remote state of the C6 witness run. -/
def rC6w : Remote :=
  { exRemoteC3 with hosts := [hostC6w], nextInterfaceId := 201 }

/-- Calls of the C3 witness merge-mode `update_host` run. -/
def csmW : List Call :=
  [Call.hostUpdateMain 10 [9, 1, 2] 0 "0", Call.ifaceUpdate 100 ifaceAgent]

/-- Calls of the C3 witness replace-mode `update_host` run. -/
def csrW : List Call :=
  [Call.hostUpdateMain 10 [9] 0 "0", Call.ifaceUpdate 100 ifaceAgent]

/-- Calls of the C3 witness merge-mode `link_or_clear_template` run. -/
def cslW : List Call := [Call.hostUpdateTemplates 10 [5, 7] none]

/-- Calls of the C3 witness replace-mode `link_or_clear_template` run. -/
def cscW : List Call := [Call.hostUpdateTemplates 10 [7] (some [5])]

/-- Final remote of the C3 witness merge-mode `update_host` run. -/
def rmW : Remote :=
  { exRemoteC3 with hosts := [{ exHostC3 with groupids := [9, 1, 2] }] }

/-- Final remote of the C3 witness replace-mode `update_host` run. -/
def rrW : Remote :=
  { exRemoteC3 with hosts := [{ exHostC3 with groupids := [9] }] }

/-- Final remote of the C3 witness merge-mode `link_or_clear_template` run. -/
def rlW : Remote :=
  { exRemoteC3 with hosts := [{ exHostC3 with templateids := [5, 7] }] }

/-- Final remote of the C3 witness replace-mode `link_or_clear_template` run. -/
def rcW : Remote :=
  { exRemoteC3 with hosts := [{ exHostC3 with templateids := [7] }] }

/-- Parameters matching `exRemoteC3`'s host `h1` exactly (groups g1 and g2,
template t1, the live agent interface, enabled, replace mode). -/
def pC7w : Params :=
  { host_name := "h1", host_groups := ["g1", "g2"], link_templates := ["t1"],
    status := "enabled", state := "present", interfaces := [ifaceAgent],
    force := true, clear := true, proxy := none, checkMode := false }

/-- `pC7w` with no host group given. -/
def pC9w : Params := { pC7w with host_groups := [] }

/-- `pC7w` asking for a template that does not exist on the server. -/
def pC8w : Params := { pC7w with link_templates := ["missing"] }

/-- The six data keys of a live interface, as a desired-interface record
(the view `check_interface_properties` compares). -/
def fieldsOf (e : LiveInterface) : Interface :=
  { type := e.type, main := e.main, useip := e.useip, ip := e.ip,
    dns := e.dns, port := e.port }

/-- The `host.update` request built by `link_or_clear_template` when `clear`
is set. -/
def linkClearCall (r : Remote) (hid : Nat) (tids : List Nat) : Call :=
  Call.hostUpdateTemplates hid (setList tids)
    (some ((setList (get_host_templates_by_host_id r hid)).filter
      (fun t => t ∉ setList tids)))

/-- Well-formedness of a server state: duplicate-free group-catalog names and
ids, duplicate-free host ids, per-host duplicate-free interface ids, and all
interface ids below the fresh-id counter. -/
def Remote.wf (r : Remote) : Prop :=
  (r.groupCatalog.map Prod.fst).Nodup ∧
  (r.groupCatalog.map Prod.snd).Nodup ∧
  (r.hosts.map (fun h => h.hostid)).Nodup ∧
  (∀ h ∈ r.hosts, (h.interfaces.map (fun e => e.interfaceid)).Nodup) ∧
  (∀ h ∈ r.hosts, ∀ n ∈ h.interfaces.map (fun e => e.interfaceid),
    n < r.nextInterfaceId)

/-- Replace-mode parameters used by the C4 witness: desired group `g1`,
template `t1`, the agent interface, against `exRemote`. -/
def pC4w : Params :=
  { host_name := "h1", host_groups := ["g1"], link_templates := ["t1"],
    status := "enabled", state := "present", interfaces := [ifaceAgent],
    force := true, clear := true, proxy := none, checkMode := false }

/-! ## Theorems -/

/-- **C1** (code bug, first half refuted): the spec says "absent +
desired-absent is a no-op" with no create/update/delete call, and the module
documentation says `state=absent` only removes an existing host.  But when
the host does not exist `main` ignores `state` and takes the creation branch:
on this input it issues `host.create` (changing the remote state) and then
crashes with the uncaught `TypeError` of the `link_or_clear_template` call.
The second half of the claim holds: when the host exists, `state=absent`
deletes it and reports changed. -/
theorem C1_absent_absent_not_noop :
    (mainRun pC1 exRemote).outcome =
      Outcome.crashed "TypeError: link_or_clear_template() takes exactly 4 arguments (3 given)" ∧
    (mainRun pC1 exRemote).calls = [Call.hostCreate "nope" [1] 0 [ifaceAgent] "0"] ∧
    (mainRun pC1 exRemote).remote ≠ exRemote ∧
    mainRun pC1b exRemote =
      ⟨Outcome.exited true "Successfully delete host h1", [Call.hostDelete 10],
        { exRemote with hosts := [] }⟩ := by
  refine ⟨rfl, rfl, by decide, rfl⟩

/-- **C5** (code bug): the claim says the creation path validates (≥１ group,
≥1 interface), creates the host, links the templates and exits
`changed=true`.  The validation half holds, and `host.create` is issued; but
the subsequent call `host.link_or_clear_template(host_id, template_ids)`
passes two arguments to a method that requires three (`clear` has no
default), so the module raises `TypeError` after creating the host: templates
are never linked and `exit_json(changed=True)` is never reached. -/
theorem C5_create_path_crashes :
    (mainRun pC5nogroup exRemote) =
      ⟨Outcome.failed "Specify at least one group for creating host 'newh'.", [], exRemote⟩ ∧
    (mainRun pC5noiface exRemote) =
      ⟨Outcome.failed "Specify at least one interface for creating host 'newh'.", [], exRemote⟩ ∧
    (mainRun pC5 exRemote).calls = [Call.hostCreate "newh" [1] 0 [ifaceAgent] "0"] ∧
    (mainRun pC5 exRemote).outcome =
      Outcome.crashed "TypeError: link_or_clear_template() takes exactly 4 arguments (3 given)" ∧
    (∀ changed msg, (mainRun pC5 exRemote).outcome ≠ Outcome.exited changed msg) := by
  have hc : (mainRun pC5 exRemote).outcome =
      Outcome.crashed "TypeError: link_or_clear_template() takes exactly 4 arguments (3 given)" := rfl
  refine ⟨rfl, rfl, rfl, rfl, ?_⟩
  intro changed msg h
  rw [hc] at h
  exact Outcome.noConfusion h

/-- **C2** counterexample: two interface lists that are field-for-field
identical (up to the server-side `interfaceid`), whose per-type matched pairs
therefore agree on every field — each desired type matches exactly one live
type and vice versa — are nevertheless reported as *different* by
`check_interface_properties`, because the function matches interfaces by
`port`, not by `type`: the two interfaces share port 10050, so the agent/SNMP
cross pairs are also compared and differ on the `type` key. -/
theorem C2_counterexample_not_type_matching :
    ((∀ e ∈ [liveAgent, liveSnmp], ∀ i ∈ [ifaceAgent, ifaceSnmp],
        i.type = e.type → fieldsMatch e i = true) ∧
     (∀ i ∈ [ifaceAgent, ifaceSnmp], ∃ e ∈ [liveAgent, liveSnmp], e.type = i.type) ∧
     (∀ e ∈ [liveAgent, liveSnmp], ∃ i ∈ [ifaceAgent, ifaceSnmp], i.type = e.type)) ∧
    check_interface_properties [liveAgent, liveSnmp] [ifaceAgent, ifaceSnmp] = true := by
  decide

/-- `sameSet` decides double inclusion. -/
theorem sameSet_iff {α : Type} [DecidableEq α] (a b : List α) :
    sameSet a b = true ↔ ((∀ x ∈ a, x ∈ b) ∧ ∀ x ∈ b, x ∈ a) := by
  simp [sameSet]

/-- `check_interface_properties` reports two lists equal exactly when they
expose the same set of ports and every live/desired pair sharing a port
agrees on every field of the desired dictionary. -/
theorem check_interface_properties_false_iff (el : List LiveInterface) (il : List Interface) :
    check_interface_properties el il = false ↔
      ((∀ q : Int, (∃ i ∈ il, i.port = q) ↔ (∃ e ∈ el, e.port = q)) ∧
       ∀ e ∈ el, ∀ i ∈ il, i.port = e.port → fieldsMatch e i = true) := by
  have hstep : check_interface_properties el il = false ↔
      (sameSet (il.map (fun i => i.port)) (el.map (fun e => e.port)) = true ∧
       el.any (fun e => il.any (fun i => i.port == e.port && !(fieldsMatch e i))) = false) := by
    unfold check_interface_properties
    cases hA : sameSet (il.map (fun i => i.port)) (el.map (fun e => e.port)) <;>
      cases hB : el.any (fun e => il.any (fun i => i.port == e.port && !(fieldsMatch e i))) <;>
        simp [hA, hB]
  rw [hstep, sameSet_iff]
  constructor
  · rintro ⟨⟨h1, h2⟩, hany⟩
    refine ⟨fun q => ⟨?_, ?_⟩, ?_⟩
    · rintro ⟨i, hi, hq⟩
      have : q ∈ el.map (fun e => e.port) := h1 _ (List.mem_map.mpr ⟨i, hi, hq⟩)
      rcases List.mem_map.mp this with ⟨e, he, hq'⟩
      exact ⟨e, he, hq'⟩
    · rintro ⟨e, he, hq⟩
      have : q ∈ il.map (fun i => i.port) := h2 _ (List.mem_map.mpr ⟨e, he, hq⟩)
      rcases List.mem_map.mp this with ⟨i, hi, hq'⟩
      exact ⟨i, hi, hq'⟩
    · intro e he i hi hpq
      by_contra hne
      have : el.any (fun e => il.any (fun i => i.port == e.port && !(fieldsMatch e i))) = true := by
        refine List.any_eq_true.mpr ⟨e, he, List.any_eq_true.mpr ⟨i, hi, ?_⟩⟩
        simp [hpq, hne]
      rw [this] at hany
      exact Bool.noConfusion hany
  · rintro ⟨hports, hfields⟩
    refine ⟨⟨?_, ?_⟩, ?_⟩
    · intro q hq
      rcases List.mem_map.mp hq with ⟨i, hi, hq'⟩
      rcases (hports q).mp ⟨i, hi, hq'⟩ with ⟨e, he, hq''⟩
      exact List.mem_map.mpr ⟨e, he, hq''⟩
    · intro q hq
      rcases List.mem_map.mp hq with ⟨e, he, hq'⟩
      rcases (hports q).mpr ⟨e, he, hq'⟩ with ⟨i, hi, hq''⟩
      exact List.mem_map.mpr ⟨i, hi, hq''⟩
    · rw [Bool.eq_false_iff]
      intro hany
      rcases List.any_eq_true.mp hany with ⟨e, he, hinner⟩
      rcases List.any_eq_true.mp hinner with ⟨i, hi, hcond⟩
      rw [Bool.and_eq_true] at hcond
      obtain ⟨hpq, hnm⟩ := hcond
      have hpq' : i.port = e.port := by simpa using hpq
      have := hfields e he i hi hpq'
      rw [this] at hnm
      exact Bool.noConfusion hnm

/-- **C2 (amended)**: the difference computation matches interfaces by
*port*, not type: `check_interface_properties` reports the lists equal
exactly when they expose the same set of ports and every live/desired pair
sharing a port agrees on every field of the desired dictionary. -/
theorem C2_amended_port_matching (el : List LiveInterface) (il : List Interface) :
    check_interface_properties el il = false ↔
      ((∀ q : Int, (∃ i ∈ il, i.port = q) ↔ (∃ e ∈ el, e.port = q)) ∧
       ∀ e ∈ el, ∀ i ∈ il, i.port = e.port → fieldsMatch e i = true) :=
  check_interface_properties_false_iff el il

/-- **C4** counterexample: in merge mode (`clear=false`), a host that sits in
one group more than the desired set makes the group-set comparison of
`check_all_properties` fail on *every* run: the first run issues updates that
leave the remote state exactly as it was (the union of groups is what the
host already has), yet the second run — with the same desired spec against a
state only the first run touched — again reports `changed=true` instead of
the claimed `changed=false`. -/
theorem C4_counterexample_merge_not_idempotent :
    (mainRun pC4 exRemote).remote = exRemote ∧
    (mainRun pC4 exRemote).outcome =
      Outcome.exited true "Successfully update host h1 (10.0.0.1)" ∧
    (mainRun pC4 (mainRun pC4 exRemote).remote).outcome =
      Outcome.exited true "Successfully update host h1 (10.0.0.1)" := by
  exact ⟨rfl, rfl, rfl⟩

/-- **C6** counterexample: with `clear=false` (merge mode), the live SNMP
interface (`type = 2`, id 101) matches no desired interface type — the only
desired interface has `type = 1` — and the claim says it must be left in
place; but `update_host` issues `hostinterface.delete [101]` anyway: the
interface-removal step never consults the `clear` flag. -/
theorem C6_counterexample_merge_deletes_unmatched :
    (∀ i ∈ [ifaceAgent], i.type ≠ liveSnmp.type) ∧
    update_host false exRemoteC6 "h1" [1] 0 10 [ifaceAgent] [liveAgent, liveSnmp] "0" false =
      Sum.inr ([Call.hostUpdateMain 10 [1, 2] 0 "0", Call.ifaceUpdate 100 ifaceAgent,
        Call.ifaceDelete [101]], exRemote) := by
  exact ⟨by decide, rfl⟩

/-- In check mode `delete_host` exits before contacting the API. -/
theorem delete_host_in_check_mode (r : Remote) (hid : Nat) :
    delete_host true r hid = Sum.inl (Outcome.exited true "") := rfl

/-- In check mode `add_host` exits before contacting the API. -/
theorem add_host_in_check_mode (r : Remote) (n : String) (g : List Nat)
    (st : Int) (il : List Interface) (pid : String) :
    add_host true r n g st il pid = Sum.inl (Outcome.exited true "") := rfl

/-- In check mode `link_or_clear_template` exits before contacting the API. -/
theorem link_or_clear_template_in_check_mode (r : Remote) (hid : Nat)
    (tids : List Nat) (clear : Bool) :
    link_or_clear_template true r hid tids clear = Sum.inl (Outcome.exited true "") := rfl

/-- In check mode `update_host` exits before contacting the API. -/
theorem update_host_in_check_mode (r : Remote) (n : String) (g : List Nat)
    (st : Int) (hid : Nat) (il : List Interface) (el : List LiveInterface)
    (pid : String) (clear : Bool) :
    update_host true r n g st hid il el pid clear = Sum.inl (Outcome.exited true "") := rfl

/-- **C10**: in check mode no state-mutating API call is ever issued and the
remote state is unchanged: every mutating operation (`add_host`,
`delete_host`, `update_host`, `link_or_clear_template` and the interface
calls inside `update_host`) exits with `changed=True` before contacting the
API, on every path of `main`. -/
theorem C10_check_mode_no_mutations (p : Params) (r : Remote)
    (hcm : p.checkMode = true) :
    (mainRun p r).calls = [] ∧ (mainRun p r).remote = r := by
  suffices h : ∃ o, mainRun p r = ⟨o, [], r⟩ by
    rcases h with ⟨o, h⟩
    rw [h]
    exact ⟨rfl, rfl⟩
  unfold mainRun
  rw [hcm]
  simp only [delete_host_in_check_mode, add_host_in_check_mode,
    link_or_clear_template_in_check_mode, update_host_in_check_mode]
  repeat' first
  | exact ⟨_, rfl⟩
  | split

/-- Witness for C10 at a concrete check-mode invocation. -/
theorem C10_check_mode_no_mutations_witness :
    ({ pC4 with checkMode := true } : Params).checkMode = true ∧
    ((mainRun { pC4 with checkMode := true } exRemote).calls = [] ∧
     (mainRun { pC4 with checkMode := true } exRemote).remote = exRemote) :=
  ⟨rfl, C10_check_mode_no_mutations { pC4 with checkMode := true } exRemote rfl⟩

/-- Membership in the Python-set building fold: an element is in the result
iff it is in the accumulator or in the list. -/
theorem foldl_insert_mem {α : Type} [DecidableEq α] (l acc : List α) (x : α) :
    x ∈ l.foldl (fun a y => if y ∈ a then a else a ++ [y]) acc ↔
      (x ∈ acc ∨ x ∈ l) := by
  induction l generalizing acc with
  | nil => simp
  | cons a l ih =>
    simp only [List.foldl_cons, List.mem_cons]
    by_cases ha : a ∈ acc
    · rw [if_pos ha, ih]
      constructor
      · rintro (h | h)
        · exact Or.inl h
        · exact Or.inr (Or.inr h)
      · rintro (h | h | h)
        · exact Or.inl h
        · exact Or.inl (by rw [h]; exact ha)
        · exact Or.inr h
    · rw [if_neg ha, ih]
      simp only [List.mem_append, List.mem_singleton]
      tauto

/-- Membership in the `setList` model of Python `set(...)`. -/
theorem mem_setList {α : Type} [DecidableEq α] (l : List α) (x : α) :
    x ∈ setList l ↔ x ∈ l := by
  unfold setList
  rw [foldl_insert_mem]
  simp

/-- In an association list whose keys are duplicate-free, two entries with
the same key are the same entry. -/
theorem nodup_keys_eq {α β : Type} (l : List (α × β)) (p q : α × β)
    (hk : (l.map Prod.fst).Nodup) (hp : p ∈ l) (hq : q ∈ l) (h : p.1 = q.1) :
    p = q := by
  induction l with
  | nil => cases hp
  | cons a l ih =>
    rw [List.map_cons, List.nodup_cons] at hk
    obtain ⟨hna, hnl⟩ := hk
    rcases List.mem_cons.mp hp with hp1 | hp1 <;>
      rcases List.mem_cons.mp hq with hq1 | hq1
    · rw [hp1, hq1]
    · exfalso
      apply hna
      rw [← hp1, h]
      exact List.mem_map.mpr ⟨q, hq1, rfl⟩
    · exfalso
      apply hna
      rw [← hq1, ← h]
      exact List.mem_map.mpr ⟨p, hp1, rfl⟩
    · exact ih hnl hp1 hq1

/-- `check_host_group_exist` succeeds on any list of names that all occur in
the group catalog. -/
theorem check_host_group_exist_ok (r : Remote) (names : List String)
    (h : ∀ n ∈ names, ∃ p ∈ r.groupCatalog, p.1 = n) :
    check_host_group_exist r names = .ok true := by
  induction names with
  | nil => rfl
  | cons n ns ih =>
    obtain ⟨p, hp, hpn⟩ := h n (List.mem_cons_self n ns)
    unfold check_host_group_exist
    rw [if_neg]
    · exact ih (fun m hm => h m (List.mem_cons_of_mem _ hm))
    · intro hnone
      rw [lookupGroupId] at hnone
      cases hfind : r.groupCatalog.find? (fun q => q.1 == n) with
      | none =>
        have : ∃ q ∈ r.groupCatalog, (fun q : String × Nat => q.1 == n) q = true :=
          ⟨p, hp, by simp [hpn]⟩
        rw [← List.find?_isSome] at this
        rw [hfind] at this
        cases this
      | some q =>
        rw [hfind] at hnone
        cases hnone

/-- A successful `extractByType` returns an element of the given type, and
the rest is the input minus that occurrence. -/
theorem extractByType_none {copy : List LiveInterface} {t : Int}
    (h : ∀ e ∈ copy, e.type ≠ t) : extractByType copy t = none := by
  induction copy with
  | nil => rfl
  | cons e es ih =>
    unfold extractByType
    rw [if_neg (h e (List.mem_cons_self e es)),
      ih (fun x hx => h x (List.mem_cons_of_mem _ hx))]

/-- Elements of a different type survive `extractByType`. -/
theorem extractByType_mem_of_ne {copy copy' : List LiveInterface} {t : Int}
    {e' x : LiveInterface} (h : extractByType copy t = some (e', copy'))
    (hx : x ∈ copy) (hne : x.type ≠ t) : x ∈ copy' := by
  induction copy generalizing copy' with
  | nil => cases h
  | cons e es ih =>
    unfold extractByType at h
    by_cases he : e.type = t
    · rw [if_pos he] at h
      simp only [Option.some.injEq, Prod.mk.injEq] at h
      obtain ⟨rfl, rfl⟩ := h
      rcases List.mem_cons.mp hx with rfl | hx2
      · exact absurd he hne
      · exact hx2
    · rw [if_neg he] at h
      cases hrec : extractByType es t with
      | none => rw [hrec] at h; cases h
      | some pr =>
        obtain ⟨e2, es2⟩ := pr
        rw [hrec] at h
        simp only [Option.some.injEq, Prod.mk.injEq] at h
        obtain ⟨rfl, rfl⟩ := h
        rcases List.mem_cons.mp hx with rfl | hx2
        · exact List.mem_cons_self _ _
        · exact List.mem_cons_of_mem _ (ih hrec hx2)

/-- The rest list of a successful `extractByType` is a subset of the input. -/
theorem extractByType_subset {copy copy' : List LiveInterface} {t : Int}
    {e' : LiveInterface} (h : extractByType copy t = some (e', copy')) :
    copy' ⊆ copy := by
  induction copy generalizing copy' with
  | nil => cases h
  | cons e es ih =>
    unfold extractByType at h
    by_cases he : e.type = t
    · rw [if_pos he] at h
      simp only [Option.some.injEq, Prod.mk.injEq] at h
      obtain ⟨rfl, rfl⟩ := h
      exact List.subset_cons_self _ _
    · rw [if_neg he] at h
      cases hrec : extractByType es t with
      | none => rw [hrec] at h; cases h
      | some pr =>
        obtain ⟨e2, es2⟩ := pr
        rw [hrec] at h
        simp only [Option.some.injEq, Prod.mk.injEq] at h
        obtain ⟨rfl, rfl⟩ := h
        intro x hx
        rcases List.mem_cons.mp hx with rfl | hx2
        · exact List.mem_cons_self _ _
        · exact List.mem_cons_of_mem _ (ih hrec hx2)

/-- A live interface in the working list whose type matches no desired
interface is still in the leftover list after the loop. -/
theorem interfaceSync_unmatched_live (hid : Nat) (il : List Interface)
    (copy : List LiveInterface) (r : Remote) (e : LiveInterface)
    (he : e ∈ copy) (hno : ∀ i ∈ il, i.type ≠ e.type) :
    e ∈ (interfaceSync hid il copy r).2.1 := by
  induction il generalizing copy r with
  | nil => simpa [interfaceSync] using he
  | cons i rest ih =>
    unfold interfaceSync
    cases hex : extractByType copy i.type with
    | none =>
      exact ih copy (zapiApply r (Call.ifaceCreate hid i)) he
        (fun j hj => hno j (List.mem_cons_of_mem _ hj))
    | some pr =>
      obtain ⟨e', copy'⟩ := pr
      have he' : e ∈ copy' :=
        extractByType_mem_of_ne hex he
          (fun ht => (hno i (List.mem_cons_self i rest)) ht.symm)
      exact ih copy' (zapiApply r (Call.ifaceUpdate e'.interfaceid i)) he'
        (fun j hj => hno j (List.mem_cons_of_mem _ hj))

/-- A desired interface whose type matches no live interface in the working
list produces a `hostinterface.create` call. -/
theorem interfaceSync_unmatched_desired (hid : Nat) (il : List Interface)
    (copy : List LiveInterface) (r : Remote) (i : Interface)
    (hi : i ∈ il) (hno : ∀ e ∈ copy, e.type ≠ i.type) :
    Call.ifaceCreate hid i ∈ (interfaceSync hid il copy r).1 := by
  induction il generalizing copy r with
  | nil => cases hi
  | cons j rest ih =>
    unfold interfaceSync
    rcases List.mem_cons.mp hi with rfl | hi2
    · rw [extractByType_none hno]
      exact List.mem_cons_self _ _
    · cases hex : extractByType copy j.type with
      | none =>
        exact List.mem_cons_of_mem _
          (ih copy (zapiApply r (Call.ifaceCreate hid j)) hi2 hno)
      | some pr =>
        obtain ⟨e', copy'⟩ := pr
        exact List.mem_cons_of_mem _
          (ih copy' (zapiApply r (Call.ifaceUpdate e'.interfaceid j)) hi2
            (fun e hee => hno e (extractByType_subset hex hee)))

/-- When the desired list is non-empty, a live interface of the working list
whose type matches no desired interface ends up in the single
`hostinterface.delete` request of the interface section. -/
theorem interface_section_deletes_unmatched (hid : Nat) (il : List Interface)
    (el : List LiveInterface) (r0 : Remote) (e : LiveInterface)
    (hil : il ≠ []) (he : e ∈ el) (hno : ∀ i ∈ il, i.type ≠ e.type) :
    ∃ ids, Call.ifaceDelete ids ∈ (update_host_interface_section hid il el r0).1 ∧
      e.interfaceid ∈ ids := by
  unfold update_host_interface_section
  rw [if_neg (by simp [List.isEmpty_iff]; exact hil)]
  have hrem : e ∈ (interfaceSync hid il el r0).2.1 :=
    interfaceSync_unmatched_live hid il el r0 e he hno
  have hmemid : e.interfaceid ∈
      (interfaceSync hid il el r0).2.1.map (fun x => x.interfaceid) :=
    List.mem_map.mpr ⟨e, hrem, rfl⟩
  unfold deleteLeftover
  rw [if_pos (List.length_pos.mpr (List.ne_nil_of_mem hmemid))]
  exact ⟨_, List.mem_append_right _ (List.mem_singleton_self _), hmemid⟩

/-- A desired interface whose type matches no live interface of the working
list produces a `hostinterface.create` call in the interface section. -/
theorem interface_section_creates_unmatched (hid : Nat) (il : List Interface)
    (el : List LiveInterface) (r0 : Remote) (i : Interface)
    (hi : i ∈ il) (hno : ∀ e ∈ el, e.type ≠ i.type) :
    Call.ifaceCreate hid i ∈ (update_host_interface_section hid il el r0).1 := by
  unfold update_host_interface_section
  rw [if_neg (by simp [List.isEmpty_iff]; exact List.ne_nil_of_mem hi)]
  have hc := interfaceSync_unmatched_desired hid il el r0 i hi hno
  unfold deleteLeftover
  split
  · exact List.mem_append_left _ hc
  · exact hc

/-- **C6 (amended)**: during an update with a non-empty desired interface
list, a live interface whose type matches no desired interface is deleted in
*both* modes — the `clear` flag is quantified over and never consulted by the
interface step; and a desired interface whose type matches no live interface
is created, again in either mode. -/
theorem C6_amended_interface_sync (r : Remote) (host_name : String)
    (group_ids : List Nat) (status : Int) (host_id : Nat)
    (il : List Interface) (el : List LiveInterface) (proxy_id : String)
    (clear : Bool) (cs : List Call) (r' : Remote)
    (hil : il ≠ [])
    (hrun : update_host false r host_name group_ids status host_id il el proxy_id clear
      = Sum.inr (cs, r')) :
    (∀ e ∈ el, (∀ i ∈ il, i.type ≠ e.type) →
       ∃ ids, Call.ifaceDelete ids ∈ cs ∧ e.interfaceid ∈ ids) ∧
    (∀ i ∈ il, (∀ e ∈ el, e.type ≠ i.type) → Call.ifaceCreate host_id i ∈ cs) := by
  unfold update_host at hrun
  rw [if_neg (by simp)] at hrun
  cases hm : (if clear then Except.ok group_ids else mergeGroups r host_id group_ids) with
  | error m => rw [hm] at hrun; cases hrun
  | ok gids =>
    rw [hm] at hrun
    simp only [Sum.inr.injEq, Prod.mk.injEq] at hrun
    obtain ⟨hcs, _hr⟩ := hrun
    subst hcs
    constructor
    · intro e he hno
      obtain ⟨ids, hmem, hin⟩ :=
        interface_section_deletes_unmatched host_id il el _ e hil he hno
      exact ⟨ids, List.mem_cons_of_mem _ hmem, hin⟩
    · intro i hi hno
      exact List.mem_cons_of_mem _
        (interface_section_creates_unmatched host_id il el _ i hi hno)

/-- Witness for the amended C6 at a concrete merge-relevant input. -/
theorem C6_amended_interface_sync_witness :
    ([ifaceAgent] ≠ ([] : List Interface)) ∧
    ((∀ e ∈ [liveSnmp], (∀ i ∈ [ifaceAgent], i.type ≠ e.type) →
        ∃ ids, Call.ifaceDelete ids ∈ csC6w ∧ e.interfaceid ∈ ids) ∧
     (∀ i ∈ [ifaceAgent], (∀ e ∈ [liveSnmp], e.type ≠ i.type) →
        Call.ifaceCreate 10 i ∈ csC6w)) :=
  ⟨by decide,
    C6_amended_interface_sync exRemoteC3 "h1" [9] 0 10 [ifaceAgent] [liveSnmp]
      "0" true csC6w rC6w (by decide) rfl⟩

/-- Resolving the host's own group names back to ids succeeds, and under a
duplicate-free catalog key list the resulting ids are exactly the host's
group ids that occur in the catalog. -/
theorem group_ids_roundtrip (r : Remote) (host_id : Nat) (h : LiveHost)
    (hfind : findHostById r host_id = some h)
    (hnames : (r.groupCatalog.map Prod.fst).Nodup) :
    ∃ ids, get_group_ids_by_group_names r (get_host_groups_by_host_id r host_id) = .ok ids ∧
      ∀ g, g ∈ ids ↔ (g ∈ r.groupCatalog.map Prod.snd ∧ g ∈ h.groupids) := by
  have hnamesdef : get_host_groups_by_host_id r host_id =
      (r.groupCatalog.filter (fun p => p.2 ∈ h.groupids)).map (fun p => p.1) := by
    rw [get_host_groups_by_host_id, hfind]
  have hfrom : ∀ n ∈ get_host_groups_by_host_id r host_id,
      ∃ p ∈ r.groupCatalog, p.1 = n := by
    intro n hn
    rw [hnamesdef] at hn
    rcases List.mem_map.mp hn with ⟨p, hpf, hp1⟩
    exact ⟨p, List.mem_of_mem_filter hpf, hp1⟩
  refine ⟨(r.groupCatalog.filter
      (fun p => p.1 ∈ get_host_groups_by_host_id r host_id)).map (fun p => p.2),
    ?_, ?_⟩
  · rw [get_group_ids_by_group_names, check_host_group_exist_ok r _ hfrom]
  · intro g
    constructor
    · intro hg
      rcases List.mem_map.mp hg with ⟨p, hpf, hp2⟩
      rw [List.mem_filter] at hpf
      obtain ⟨hpc, hpn⟩ := hpf
      have hpn' : p.1 ∈ get_host_groups_by_host_id r host_id := of_decide_eq_true hpn
      rw [hnamesdef] at hpn'
      rcases List.mem_map.mp hpn' with ⟨q, hqf, hq1⟩
      rw [List.mem_filter] at hqf
      obtain ⟨hqc, hq2⟩ := hqf
      have hq2' : q.2 ∈ h.groupids := of_decide_eq_true hq2
      have hqp : q = p := nodup_keys_eq _ q p hnames hqc hpc hq1
      subst hqp
      exact ⟨List.mem_map.mpr ⟨q, hqc, hp2⟩, by rw [← hp2]; exact hq2'⟩
    · rintro ⟨hg1, hg2⟩
      rcases List.mem_map.mp hg1 with ⟨p, hpc, hp2⟩
      refine List.mem_map.mpr ⟨p, ?_, hp2⟩
      rw [List.mem_filter]
      refine ⟨hpc, decide_eq_true ?_⟩
      rw [hnamesdef]
      refine List.mem_map.mpr ⟨p, ?_, rfl⟩
      rw [List.mem_filter]
      refine ⟨hpc, decide_eq_true ?_⟩
      rw [hp2]
      exact hg2

/-- `mergeGroups` succeeds whenever the host is found and the catalog keys
are duplicate-free, and its result holds exactly the desired ids plus the
resolved existing ids. -/
theorem mergeGroups_mem (r : Remote) (host_id : Nat) (h : LiveHost)
    (group_ids : List Nat)
    (hfind : findHostById r host_id = some h)
    (hnames : (r.groupCatalog.map Prod.fst).Nodup) :
    ∃ merged, mergeGroups r host_id group_ids = .ok merged ∧
      ∀ g, g ∈ merged ↔
        (g ∈ group_ids ∨ (g ∈ r.groupCatalog.map Prod.snd ∧ g ∈ h.groupids)) := by
  obtain ⟨ids, hok, hiff⟩ := group_ids_roundtrip r host_id h hfind hnames
  refine ⟨ids.foldl (fun acc g => if g ∈ acc then acc else acc ++ [g]) group_ids,
    ?_, ?_⟩
  · unfold mergeGroups
    rw [hok]
  · intro g
    rw [foldl_insert_mem]
    constructor
    · rintro (hg | hg)
      · exact Or.inl hg
      · exact Or.inr ((hiff g).mp hg)
    · rintro (hg | hg)
      · exact Or.inl hg
      · exact Or.inr ((hiff g).mpr hg)

/-- `update_host` in replace mode sends exactly the desired group list. -/
theorem update_host_clear_eq (r : Remote) (hn : String) (g : List Nat)
    (st : Int) (hid : Nat) (il : List Interface) (el : List LiveInterface)
    (pid : String) :
    update_host false r hn g st hid il el pid true =
      Sum.inr (Call.hostUpdateMain hid g st pid ::
          (update_host_interface_section hid il el
            (zapiApply r (Call.hostUpdateMain hid g st pid))).1,
        (update_host_interface_section hid il el
          (zapiApply r (Call.hostUpdateMain hid g st pid))).2) := rfl

/-- `update_host` in merge mode sends the merged group list. -/
theorem update_host_merge_eq (r : Remote) (hn : String) (g : List Nat)
    (st : Int) (hid : Nat) (il : List Interface) (el : List LiveInterface)
    (pid : String) (merged : List Nat)
    (hok : mergeGroups r hid g = .ok merged) :
    update_host false r hn g st hid il el pid false =
      Sum.inr (Call.hostUpdateMain hid merged st pid ::
          (update_host_interface_section hid il el
            (zapiApply r (Call.hostUpdateMain hid merged st pid))).1,
        (update_host_interface_section hid il el
          (zapiApply r (Call.hostUpdateMain hid merged st pid))).2) := by
  unfold update_host
  rw [if_neg (by simp), if_neg (by simp), hok]

/-- The single request `link_or_clear_template` issues with `clear`. -/
theorem link_or_clear_template_clear_eq (r : Remote) (hid : Nat)
    (tids : List Nat) :
    link_or_clear_template false r hid tids true =
      Sum.inr ([Call.hostUpdateTemplates hid (setList tids)
          (some ((setList (get_host_templates_by_host_id r hid)).filter
            (fun t => t ∉ setList tids)))],
        zapiApply r (Call.hostUpdateTemplates hid (setList tids)
          (some ((setList (get_host_templates_by_host_id r hid)).filter
            (fun t => t ∉ setList tids))))) := rfl

/-- The single request `link_or_clear_template` issues without `clear`. -/
theorem link_or_clear_template_merge_eq (r : Remote) (hid : Nat)
    (tids : List Nat) :
    link_or_clear_template false r hid tids false =
      Sum.inr ([Call.hostUpdateTemplates hid
          (setList (setList (get_host_templates_by_host_id r hid) ++ setList tids)) none],
        zapiApply r (Call.hostUpdateTemplates hid
          (setList (setList (get_host_templates_by_host_id r hid) ++ setList tids)) none)) := rfl

/-- The templates the server reports for a found host. -/
theorem get_host_templates_eq (r : Remote) (host_id : Nat) (h : LiveHost)
    (hfind : findHostById r host_id = some h) :
    get_host_templates_by_host_id r host_id = h.templateids := by
  rw [get_host_templates_by_host_id, hfind]

/-- **C3**: in merge mode (`clear` false) the group list `update_host` sends
and the template list `link_or_clear_template` sends are supersets of both
the existing sets and the desired sets (so nothing existing is removed — the
template request is exactly the union and carries no clear list); in replace
mode (`clear` true) the group list sent is exactly the desired ids and every
existing template outside the desired set is put in `templates_clear`. -/
theorem C3_merge_and_replace
    (r : Remote) (host_id : Nat) (h : LiveHost)
    (group_ids template_ids : List Nat) (host_name : String) (status : Int)
    (proxy_id : String) (interfaces : List Interface)
    (exist_ifaces : List LiveInterface)
    (csm csr csl csc : List Call) (rm rr rl rc : Remote)
    (hfind : findHostById r host_id = some h)
    (hnames : (r.groupCatalog.map Prod.fst).Nodup)
    (hsub : ∀ g ∈ h.groupids, g ∈ r.groupCatalog.map Prod.snd)
    (hm : update_host false r host_name group_ids status host_id interfaces
      exist_ifaces proxy_id false = Sum.inr (csm, rm))
    (hr : update_host false r host_name group_ids status host_id interfaces
      exist_ifaces proxy_id true = Sum.inr (csr, rr))
    (hl : link_or_clear_template false r host_id template_ids false = Sum.inr (csl, rl))
    (hc : link_or_clear_template false r host_id template_ids true = Sum.inr (csc, rc)) :
    (∃ gids, Call.hostUpdateMain host_id gids status proxy_id ∈ csm ∧
       (∀ g ∈ group_ids, g ∈ gids) ∧ ∀ g ∈ h.groupids, g ∈ gids) ∧
    Call.hostUpdateMain host_id group_ids status proxy_id ∈ csr ∧
    (∃ tids, csl = [Call.hostUpdateTemplates host_id tids none] ∧
       ∀ t, t ∈ tids ↔ (t ∈ h.templateids ∨ t ∈ template_ids)) ∧
    (∃ tids clr, csc = [Call.hostUpdateTemplates host_id tids (some clr)] ∧
       (∀ t, t ∈ tids ↔ t ∈ template_ids) ∧
       ∀ t, t ∈ clr ↔ (t ∈ h.templateids ∧ t ∉ template_ids)) := by
  obtain ⟨merged, hmok, hmiff⟩ := mergeGroups_mem r host_id h group_ids hfind hnames
  refine ⟨?_, ?_, ?_, ?_⟩
  · rw [update_host_merge_eq r host_name group_ids status host_id interfaces
      exist_ifaces proxy_id merged hmok] at hm
    simp only [Sum.inr.injEq, Prod.mk.injEq] at hm
    obtain ⟨hcs, _⟩ := hm
    refine ⟨merged, ?_, ?_, ?_⟩
    · rw [← hcs]
      exact List.mem_cons_self _ _
    · intro g hg
      exact (hmiff g).mpr (Or.inl hg)
    · intro g hg
      exact (hmiff g).mpr (Or.inr ⟨hsub g hg, hg⟩)
  · rw [update_host_clear_eq] at hr
    simp only [Sum.inr.injEq, Prod.mk.injEq] at hr
    obtain ⟨hcs, _⟩ := hr
    rw [← hcs]
    exact List.mem_cons_self _ _
  · rw [link_or_clear_template_merge_eq] at hl
    simp only [Sum.inr.injEq, Prod.mk.injEq] at hl
    obtain ⟨hcs, _⟩ := hl
    refine ⟨setList (setList (get_host_templates_by_host_id r host_id) ++ setList template_ids),
      hcs.symm, ?_⟩
    intro t
    rw [mem_setList, List.mem_append, mem_setList, mem_setList,
      get_host_templates_eq r host_id h hfind]
  · rw [link_or_clear_template_clear_eq] at hc
    simp only [Sum.inr.injEq, Prod.mk.injEq] at hc
    obtain ⟨hcs, _⟩ := hc
    refine ⟨setList template_ids,
      (setList (get_host_templates_by_host_id r host_id)).filter
        (fun t => t ∉ setList template_ids),
      hcs.symm, ?_, ?_⟩
    · intro t
      rw [mem_setList]
    · intro t
      rw [List.mem_filter, mem_setList, get_host_templates_eq r host_id h hfind]
      constructor
      · rintro ⟨ht1, ht2⟩
        refine ⟨ht1, ?_⟩
        have := of_decide_eq_true ht2
        rw [mem_setList] at this
        exact this
      · rintro ⟨ht1, ht2⟩
        refine ⟨ht1, decide_eq_true ?_⟩
        rw [mem_setList]
        exact ht2

/-- Witness for C3 at a concrete host in groups 1,2 with template 5, desired
group list [9] and desired template list [7]. -/
theorem C3_merge_and_replace_witness :
    (∀ g ∈ exHostC3.groupids, g ∈ exRemoteC3.groupCatalog.map Prod.snd) ∧
    ((∃ gids, Call.hostUpdateMain 10 gids 0 "0" ∈ csmW ∧
        (∀ g ∈ [9], g ∈ gids) ∧ ∀ g ∈ exHostC3.groupids, g ∈ gids) ∧
     Call.hostUpdateMain 10 [9] 0 "0" ∈ csrW ∧
     (∃ tids, cslW = [Call.hostUpdateTemplates 10 tids none] ∧
        ∀ t, t ∈ tids ↔ (t ∈ exHostC3.templateids ∨ t ∈ [7])) ∧
     (∃ tids clr, cscW = [Call.hostUpdateTemplates 10 tids (some clr)] ∧
        (∀ t, t ∈ tids ↔ t ∈ [7]) ∧
        ∀ t, t ∈ clr ↔ (t ∈ exHostC3.templateids ∧ t ∉ [7]))) :=
  ⟨by decide,
    C3_merge_and_replace exRemoteC3 10 exHostC3 [9] [7] "h1" 0 "0" [ifaceAgent]
      [liveAgent] csmW csrW cslW cscW rmW rrW rlW rcW rfl (by decide) (by decide)
      rfl rfl rfl rfl⟩

/-- The three reference resolutions succeed together. -/
theorem resolveAll_ok (r : Remote) (p : Params) (tids gids : List Nat)
    (pid : String) (ht : resolveTemplates r p = .ok tids)
    (hg : resolveGroups r p = .ok gids) (hp : resolveProxy r p = .ok pid) :
    resolveAll r p = .ok (tids, gids, pid) := by
  unfold resolveAll
  rw [ht, hg, hp]

/-- When the host exists, the state is `present`, a group resolved, `force`
is set and `check_all_properties` is false, `main` exits `changed=false`
with no call and an untouched remote. -/
theorem mainRun_no_diff (p : Params) (r : Remote) (h : LiveHost)
    (tids gids : List Nat) (pid : String)
    (ht : resolveTemplates r p = .ok tids)
    (hg : resolveGroups r p = .ok gids)
    (hp : resolveProxy r p = .ok pid)
    (hhost : host_get r p.host_name = some h)
    (hstate : p.state = "present")
    (hgne : gids ≠ [])
    (hforce : p.force = true)
    (hdiff : check_all_properties r h.hostid p.host_groups (statusOf p)
      p.interfaces tids (get_host_interfaces r h.hostid) h pid = false) :
    mainRun p r = ⟨Outcome.exited false "", [], r⟩ := by
  have hres := resolveAll_ok r p tids gids pid ht hg hp
  have hex : is_host_exist r p.host_name = true := by
    rw [is_host_exist, hhost]
    rfl
  unfold mainRun
  rw [hres]
  simp only [hex, hhost, hstate, hforce, if_true]
  rw [if_neg (by simp), if_neg (by simpa [List.isEmpty_iff] using hgne),
    if_neg (by simp), if_neg (by rw [hdiff]; simp)]

/-- **C7**: when the host exists, the desired state is `present`, at least
one group resolved, `force` is set, and the computed difference across
groups, status, interfaces, templates and proxy is empty
(`check_all_properties` is false), `main` issues no API call at all, leaves
the remote untouched, and exits `changed=false`. -/
theorem C7_no_diff_reports_unchanged (p : Params) (r : Remote) (h : LiveHost)
    (tids gids : List Nat) (pid : String)
    (ht : resolveTemplates r p = .ok tids)
    (hg : resolveGroups r p = .ok gids)
    (hp : resolveProxy r p = .ok pid)
    (hhost : host_get r p.host_name = some h)
    (hstate : p.state = "present")
    (hgne : gids ≠ [])
    (hforce : p.force = true)
    (hdiff : check_all_properties r h.hostid p.host_groups (statusOf p)
      p.interfaces tids (get_host_interfaces r h.hostid) h pid = false) :
    mainRun p r = ⟨Outcome.exited false "", [], r⟩ :=
  mainRun_no_diff p r h tids gids pid ht hg hp hhost hstate hgne hforce hdiff

/-- Witness for C7: the host `h1` of `exRemoteC3` already matches the
desired spec, so the run reports `changed=false` without contacting the
API. -/
theorem C7_no_diff_reports_unchanged_witness :
    resolveTemplates exRemoteC3 pC7w = .ok [5] ∧
    mainRun pC7w exRemoteC3 = ⟨Outcome.exited false "", [], exRemoteC3⟩ :=
  ⟨rfl, C7_no_diff_reports_unchanged pC7w exRemoteC3 exHostC3 [5] [1, 2] "0"
    rfl rfl rfl rfl rfl (by decide) rfl (by decide)⟩

/-- With an existing host, state `present` and an empty resolved group list,
`main` fails before computing any difference or issuing any call. -/
theorem mainRun_present_nogroup (p : Params) (r : Remote) (h : LiveHost)
    (tids : List Nat) (pid : String)
    (ht : resolveTemplates r p = .ok tids)
    (hg : resolveGroups r p = .ok [])
    (hp : resolveProxy r p = .ok pid)
    (hhost : host_get r p.host_name = some h)
    (hstate : p.state = "present") :
    mainRun p r = ⟨Outcome.failed ("Specify at least one group for updating host '"
      ++ p.host_name ++ "'."), [], r⟩ := by
  have hres := resolveAll_ok r p tids [] pid ht hg hp
  have hex : is_host_exist r p.host_name = true := by
    rw [is_host_exist, hhost]
    rfl
  unfold mainRun
  rw [hres]
  simp only [hex, hhost, hstate, if_true]
  rw [if_neg (by simp), if_pos (by simp)]

/-- **C9**: updating an existing host with desired state `present` requires
at least one host group: when the resolved group-id list is empty, the module
fails with the exact message of line 478 before computing any difference or
issuing any call, and the remote state is untouched. -/
theorem C9_update_requires_group (p : Params) (r : Remote) (h : LiveHost)
    (tids : List Nat) (pid : String)
    (ht : resolveTemplates r p = .ok tids)
    (hg : resolveGroups r p = .ok [])
    (hp : resolveProxy r p = .ok pid)
    (hhost : host_get r p.host_name = some h)
    (hstate : p.state = "present") :
    mainRun p r = ⟨Outcome.failed ("Specify at least one group for updating host '"
      ++ p.host_name ++ "'."), [], r⟩ :=
  mainRun_present_nogroup p r h tids pid ht hg hp hhost hstate

/-- Witness for C9: the existing host `h1` with an empty group parameter. -/
theorem C9_update_requires_group_witness :
    resolveGroups exRemoteC3 pC9w = .ok [] ∧
    mainRun pC9w exRemoteC3 =
      ⟨Outcome.failed "Specify at least one group for updating host 'h1'.", [], exRemoteC3⟩ :=
  ⟨rfl, C9_update_requires_group pC9w exRemoteC3 exHostC3 [5] "0" rfl rfl rfl rfl rfl⟩

/-- A failed reference resolution makes `main` terminate immediately with
that failure, no API call, and an untouched remote. -/
theorem mainRun_resolve_error (p : Params) (r : Remote) (m : String)
    (hfail : resolveAll r p = .error m) :
    mainRun p r = ⟨Outcome.failed m, [], r⟩ := by
  unfold mainRun
  rw [hfail]

/-- When some template name is missing, `get_template_ids` fails, naming the
first missing template. -/
theorem get_template_ids_error_of_missing (r : Remote) (ts : List String)
    (hmiss : ∃ t ∈ ts, lookupTemplateId r t = none) :
    ∃ t ∈ ts, lookupTemplateId r t = none ∧
      get_template_ids r ts = .error ("Template not found: " ++ t) := by
  induction ts with
  | nil => simp at hmiss
  | cons t0 ts ih =>
    cases hl : lookupTemplateId r t0 with
    | none =>
      refine ⟨t0, List.mem_cons_self _ _, hl, ?_⟩
      unfold get_template_ids
      rw [hl]
    | some tid =>
      have hmiss' : ∃ t ∈ ts, lookupTemplateId r t = none := by
        rcases hmiss with ⟨t, ht, hn⟩
        rcases List.mem_cons.mp ht with rfl | ht2
        · rw [hl] at hn; cases hn
        · exact ⟨t, ht2, hn⟩
      obtain ⟨t, ht, hn, herr⟩ := ih hmiss'
      refine ⟨t, List.mem_cons_of_mem _ ht, hn, ?_⟩
      unfold get_template_ids
      rw [hl, herr]

/-- Any failure of `get_template_ids` names a missing template of its
input. -/
theorem get_template_ids_error_form (r : Remote) (ts : List String) (m : String)
    (herr : get_template_ids r ts = .error m) :
    ∃ t ∈ ts, lookupTemplateId r t = none ∧ m = "Template not found: " ++ t := by
  induction ts with
  | nil => cases herr
  | cons t0 ts ih =>
    unfold get_template_ids at herr
    cases hl : lookupTemplateId r t0 with
    | none =>
      rw [hl] at herr
      simp only [Except.error.injEq] at herr
      exact ⟨t0, List.mem_cons_self _ _, hl, herr.symm⟩
    | some tid =>
      rw [hl] at herr
      cases hrec : get_template_ids r ts with
      | error m2 =>
        rw [hrec] at herr
        simp only [Except.error.injEq] at herr
        rw [herr] at hrec
        obtain ⟨t, ht, hn, hm⟩ := ih hrec
        exact ⟨t, List.mem_cons_of_mem _ ht, hn, hm⟩
      | ok tids =>
        rw [hrec] at herr
        cases herr

/-- When some group name is missing, `check_host_group_exist` fails, naming
the first missing group. -/
theorem check_host_group_exist_error_of_missing (r : Remote) (gs : List String)
    (hmiss : ∃ g ∈ gs, lookupGroupId r g = none) :
    ∃ g ∈ gs, lookupGroupId r g = none ∧
      check_host_group_exist r gs = .error ("Hostgroup not found: " ++ g) := by
  induction gs with
  | nil => simp at hmiss
  | cons g0 gs ih =>
    cases hl : lookupGroupId r g0 with
    | none =>
      refine ⟨g0, List.mem_cons_self _ _, hl, ?_⟩
      unfold check_host_group_exist
      rw [if_pos (by rw [hl]; rfl)]
    | some gid =>
      have hmiss' : ∃ g ∈ gs, lookupGroupId r g = none := by
        rcases hmiss with ⟨g, hg, hn⟩
        rcases List.mem_cons.mp hg with rfl | hg2
        · rw [hl] at hn; cases hn
        · exact ⟨g, hg2, hn⟩
      obtain ⟨g, hg, hn, herr⟩ := ih hmiss'
      refine ⟨g, List.mem_cons_of_mem _ hg, hn, ?_⟩
      unfold check_host_group_exist
      rw [if_neg (by rw [hl]; simp), herr]

/-- Any failure of `check_host_group_exist` names a missing group of its
input. -/
theorem check_host_group_exist_error_form (r : Remote) (gs : List String)
    (m : String) (herr : check_host_group_exist r gs = .error m) :
    ∃ g ∈ gs, lookupGroupId r g = none ∧ m = "Hostgroup not found: " ++ g := by
  induction gs with
  | nil => cases herr
  | cons g0 gs ih =>
    unfold check_host_group_exist at herr
    cases hl : lookupGroupId r g0 with
    | none =>
      rw [if_pos (by rw [hl]; rfl)] at herr
      simp only [Except.error.injEq] at herr
      exact ⟨g0, List.mem_cons_self _ _, hl, herr.symm⟩
    | some gid =>
      rw [if_neg (by rw [hl]; simp)] at herr
      obtain ⟨g, hg, hn, hm⟩ := ih herr
      exact ⟨g, List.mem_cons_of_mem _ hg, hn, hm⟩

/-- Any failure of `get_group_ids_by_group_names` names a missing group. -/
theorem get_group_ids_error_form (r : Remote) (gs : List String) (m : String)
    (herr : get_group_ids_by_group_names r gs = .error m) :
    ∃ g ∈ gs, lookupGroupId r g = none ∧ m = "Hostgroup not found: " ++ g := by
  unfold get_group_ids_by_group_names at herr
  cases hc : check_host_group_exist r gs with
  | error m2 =>
    rw [hc] at herr
    simp only [Except.error.injEq] at herr
    subst herr
    exact check_host_group_exist_error_form r gs _ hc
  | ok b =>
    rw [hc] at herr
    cases herr

/-- **C8**: an invocation that names a group, template or proxy absent from
the server terminates with a failure whose message names a missing entity of
that invocation; no mutating call is issued and the remote state is
untouched — there is no retry and no partial convergence. -/
theorem C8_missing_reference_fatal (p : Params) (r : Remote)
    (hmiss : (∃ t ∈ p.link_templates, lookupTemplateId r t = none) ∨
             (∃ g ∈ p.host_groups, lookupGroupId r g = none) ∨
             (∃ pr, p.proxy = some pr ∧ lookupProxyId r pr = none)) :
    ∃ m, mainRun p r = ⟨Outcome.failed m, [], r⟩ ∧
      ((∃ t ∈ p.link_templates, lookupTemplateId r t = none ∧
          m = "Template not found: " ++ t) ∨
       (∃ g ∈ p.host_groups, lookupGroupId r g = none ∧
          m = "Hostgroup not found: " ++ g) ∨
       (∃ pr, p.proxy = some pr ∧ lookupProxyId r pr = none ∧
          m = "Proxy not found: " ++ pr)) := by
  cases hrt : resolveTemplates r p with
  | error m =>
    have hform : ∃ t ∈ p.link_templates, lookupTemplateId r t = none ∧
        m = "Template not found: " ++ t := by
      unfold resolveTemplates at hrt
      by_cases he : p.link_templates.isEmpty
      · rw [if_pos he] at hrt; cases hrt
      · rw [if_neg he] at hrt
        exact get_template_ids_error_form r _ m hrt
    have hres : resolveAll r p = .error m := by
      unfold resolveAll
      rw [hrt]
    exact ⟨m, mainRun_resolve_error p r m hres, Or.inl hform⟩
  | ok tids =>
    cases hrg : resolveGroups r p with
    | error m =>
      have hform : ∃ g ∈ p.host_groups, lookupGroupId r g = none ∧
          m = "Hostgroup not found: " ++ g := by
        unfold resolveGroups at hrg
        by_cases he : p.host_groups.isEmpty
        · rw [if_pos he] at hrg; cases hrg
        · rw [if_neg he] at hrg
          exact get_group_ids_error_form r _ m hrg
      have hres : resolveAll r p = .error m := by
        unfold resolveAll
        rw [hrt, hrg]
      exact ⟨m, mainRun_resolve_error p r m hres, Or.inr (Or.inl hform)⟩
    | ok gids =>
      rcases hmiss with h1 | h2 | h3
      · exfalso
        obtain ⟨t, ht, hn⟩ := h1
        obtain ⟨t2, ht2, hn2, herr⟩ :=
          get_template_ids_error_of_missing r p.link_templates ⟨t, ht, hn⟩
        unfold resolveTemplates at hrt
        rw [if_neg (by simp [List.isEmpty_iff]; exact List.ne_nil_of_mem ht),
          herr] at hrt
        cases hrt
      · exfalso
        obtain ⟨g, hg, hn⟩ := h2
        obtain ⟨g2, hg2, hn2, herr⟩ :=
          check_host_group_exist_error_of_missing r p.host_groups ⟨g, hg, hn⟩
        unfold resolveGroups at hrg
        rw [if_neg (by simp [List.isEmpty_iff]; exact List.ne_nil_of_mem hg)] at hrg
        unfold get_group_ids_by_group_names at hrg
        rw [herr] at hrg
        cases hrg
      · obtain ⟨pr, hpr, hn⟩ := h3
        have hrp : resolveProxy r p = .error ("Proxy not found: " ++ pr) := by
          unfold resolveProxy
          rw [hpr]
          have hinner : get_proxyid_by_proxy_name r pr =
              Except.error ("Proxy not found: " ++ pr) := by
            unfold get_proxyid_by_proxy_name
            rw [hn]
          exact hinner
        have hres : resolveAll r p = .error ("Proxy not found: " ++ pr) := by
          unfold resolveAll
          rw [hrt, hrg, hrp]
        exact ⟨_, mainRun_resolve_error p r _ hres,
          Or.inr (Or.inr ⟨pr, hpr, hn, rfl⟩)⟩

/-- Witness for C8: asking for the nonexistent template `missing`. -/
theorem C8_missing_reference_fatal_witness :
    (∃ t ∈ pC8w.link_templates, lookupTemplateId exRemoteC3 t = none) ∧
    (∃ m, mainRun pC8w exRemoteC3 = ⟨Outcome.failed m, [], exRemoteC3⟩ ∧
      ((∃ t ∈ pC8w.link_templates, lookupTemplateId exRemoteC3 t = none ∧
          m = "Template not found: " ++ t) ∨
       (∃ g ∈ pC8w.host_groups, lookupGroupId exRemoteC3 g = none ∧
          m = "Hostgroup not found: " ++ g) ∨
       (∃ pr, pC8w.proxy = some pr ∧ lookupProxyId exRemoteC3 pr = none ∧
          m = "Proxy not found: " ++ pr))) :=
  ⟨by decide, C8_missing_reference_fatal pC8w exRemoteC3 (Or.inl (by decide))⟩

/-- Injectivity on members of a list whose image under `f` is
duplicate-free. -/
theorem nodup_map_inj {α β : Type} (f : α → β) (l : List α) (a b : α)
    (hnd : (l.map f).Nodup) (ha : a ∈ l) (hb : b ∈ l) (hf : f a = f b) :
    a = b := by
  induction l with
  | nil => cases ha
  | cons x l ih =>
    rw [List.map_cons, List.nodup_cons] at hnd
    obtain ⟨hx, hl⟩ := hnd
    rcases List.mem_cons.mp ha with rfl | ha2 <;>
      rcases List.mem_cons.mp hb with rfl | hb2
    · rfl
    · exfalso
      apply hx
      rw [hf]
      exact List.mem_map.mpr ⟨b, hb2, rfl⟩
    · exfalso
      apply hx
      rw [← hf]
      exact List.mem_map.mpr ⟨a, ha2, rfl⟩
    · exact ih hl ha2 hb2

/-- `find?` commutes with mapping a function that preserves the predicate. -/
theorem find_map_comm {α : Type} (f : α → α) (q : α → Bool)
    (hq : ∀ a, q (f a) = q a) (l : List α) :
    (l.map f).find? q = (l.find? q).map f := by
  induction l with
  | nil => rfl
  | cons a l ih =>
    rw [List.map_cons, List.find?_cons, List.find?_cons, hq a]
    cases q a
    · exact ih
    · rfl

/-- With duplicate-free host ids, `find?` by id returns any member with that
id. -/
theorem find_by_id_of_mem (l : List LiveHost) (a : LiveHost)
    (hnd : (l.map (fun h => h.hostid)).Nodup) (ha : a ∈ l) :
    l.find? (fun h => h.hostid == a.hostid) = some a := by
  induction l with
  | nil => cases ha
  | cons b l ih =>
    rw [List.map_cons, List.nodup_cons] at hnd
    obtain ⟨hb, hl⟩ := hnd
    rcases List.mem_cons.mp ha with rfl | ha2
    · rw [List.find?_cons]
      simp
    · rw [List.find?_cons]
      have hne : (b.hostid == a.hostid) = false := by
        rw [beq_eq_false_iff_ne]
        intro he
        apply hb
        rw [he]
        exact List.mem_map.mpr ⟨a, ha2, rfl⟩
      rw [hne]
      exact ih hl ha2

/-- A found host carries the looked-up id. -/
theorem findHostById_hostid (r : Remote) (hid : Nat) (h : LiveHost)
    (hf : findHostById r hid = some h) : h.hostid = hid := by
  unfold findHostById at hf
  have := List.find?_some hf
  simpa using this

/-- A found host carries the looked-up name and is a member. -/
theorem host_get_spec (r : Remote) (n : String) (h : LiveHost)
    (hf : host_get r n = some h) : h.host = n ∧ h ∈ r.hosts := by
  unfold host_get at hf
  have h1 := List.find?_some hf
  have h2 := List.mem_of_find?_eq_some hf
  exact ⟨by simpa using h1, h2⟩

/-- A live interface matches its own field record. -/
theorem fieldsMatch_fieldsOf (e : LiveInterface) :
    fieldsMatch e (fieldsOf e) = true := by
  simp [fieldsMatch, fieldsOf]

/-- `setList` preserves the set of members, as `sameSet`. -/
theorem sameSet_setList {α : Type} [DecidableEq α] (l : List α) :
    sameSet l (setList l) = true := by
  rw [sameSet_iff]
  constructor
  · intro x hx
    exact (mem_setList l x).mpr hx
  · intro x hx
    exact (mem_setList l x).mp hx

/-- The rest of a successful `extractByType` is a sublist of the input. -/
theorem extractByType_sublist {copy copy' : List LiveInterface} {t : Int}
    {e' : LiveInterface} (h : extractByType copy t = some (e', copy')) :
    copy'.Sublist copy := by
  induction copy generalizing copy' with
  | nil => cases h
  | cons e es ih =>
    unfold extractByType at h
    by_cases he : e.type = t
    · rw [if_pos he] at h
      simp only [Option.some.injEq, Prod.mk.injEq] at h
      obtain ⟨rfl, rfl⟩ := h
      exact List.sublist_cons_self _ _
    · rw [if_neg he] at h
      cases hrec : extractByType es t with
      | none => rw [hrec] at h; cases h
      | some pr =>
        obtain ⟨e2, es2⟩ := pr
        rw [hrec] at h
        simp only [Option.some.injEq, Prod.mk.injEq] at h
        obtain ⟨rfl, rfl⟩ := h
        exact List.Sublist.cons₂ _ (ih hrec)

/-- The extracted element belongs to the input list. -/
theorem extractByType_mem {copy copy' : List LiveInterface} {t : Int}
    {e' : LiveInterface} (h : extractByType copy t = some (e', copy')) :
    e' ∈ copy := by
  induction copy generalizing copy' with
  | nil => cases h
  | cons e es ih =>
    unfold extractByType at h
    by_cases he : e.type = t
    · rw [if_pos he] at h
      simp only [Option.some.injEq, Prod.mk.injEq] at h
      obtain ⟨rfl, rfl⟩ := h
      exact List.mem_cons_self _ _
    · rw [if_neg he] at h
      cases hrec : extractByType es t with
      | none => rw [hrec] at h; cases h
      | some pr =>
        obtain ⟨e2, es2⟩ := pr
        rw [hrec] at h
        simp only [Option.some.injEq, Prod.mk.injEq] at h
        obtain ⟨rfl, rfl⟩ := h
        exact List.mem_cons_of_mem _ (ih hrec)

/-- Template resolution only reads the template catalog. -/
theorem get_template_ids_congr (r r' : Remote)
    (hc : r'.templateCatalog = r.templateCatalog) (ts : List String) :
    get_template_ids r' ts = get_template_ids r ts := by
  induction ts with
  | nil => rfl
  | cons t ts ih =>
    unfold get_template_ids
    rw [ih]
    have : lookupTemplateId r' t = lookupTemplateId r t := by
      unfold lookupTemplateId
      rw [hc]
    rw [this]

/-- Group existence checking only reads the group catalog. -/
theorem check_host_group_exist_congr (r r' : Remote)
    (hc : r'.groupCatalog = r.groupCatalog) (gs : List String) :
    check_host_group_exist r' gs = check_host_group_exist r gs := by
  induction gs with
  | nil => rfl
  | cons g gs ih =>
    unfold check_host_group_exist
    rw [ih]
    have : lookupGroupId r' g = lookupGroupId r g := by
      unfold lookupGroupId
      rw [hc]
    rw [this]

/-- Group resolution only reads the group catalog. -/
theorem get_group_ids_congr (r r' : Remote)
    (hc : r'.groupCatalog = r.groupCatalog) (gs : List String) :
    get_group_ids_by_group_names r' gs = get_group_ids_by_group_names r gs := by
  unfold get_group_ids_by_group_names
  rw [check_host_group_exist_congr r r' hc, hc]

/-- The whole reference-resolution prefix only reads the catalogs. -/
theorem resolveAll_congr (r r' : Remote) (p : Params)
    (hg : r'.groupCatalog = r.groupCatalog)
    (ht : r'.templateCatalog = r.templateCatalog)
    (hp : r'.proxyCatalog = r.proxyCatalog) :
    resolveAll r' p = resolveAll r p := by
  unfold resolveAll resolveTemplates resolveGroups resolveProxy
  rw [get_template_ids_congr r r' ht, get_group_ids_congr r r' hg]
  have hpx : (match p.proxy with
      | none => Except.ok "0"
      | some pr => get_proxyid_by_proxy_name r' pr) =
      (match p.proxy with
      | none => Except.ok "0"
      | some pr => get_proxyid_by_proxy_name r pr) := by
    cases p.proxy with
    | none => rfl
    | some pr =>
      unfold get_proxyid_by_proxy_name lookupProxyId
      rw [hp]
  rw [hpx]

/-- `findHostById` commutes with a hostid-preserving rewrite of the host
list. -/
theorem findHostById_hosts_map (r r' : Remote) (f : LiveHost → LiveHost)
    (hhosts : r'.hosts = r.hosts.map f)
    (hf : ∀ h, (f h).hostid = h.hostid) (hid : Nat) :
    findHostById r' hid = (findHostById r hid).map f := by
  unfold findHostById
  rw [hhosts]
  exact find_map_comm f _ (fun a => by rw [hf a]) r.hosts

/-- `host_get` commutes with a name-preserving rewrite of the host list. -/
theorem host_get_hosts_map (r r' : Remote) (f : LiveHost → LiveHost)
    (hhosts : r'.hosts = r.hosts.map f)
    (hf : ∀ h, (f h).host = h.host) (n : String) :
    host_get r' n = (host_get r n).map f := by
  unfold host_get
  rw [hhosts]
  exact find_map_comm f _ (fun a => by rw [hf a]) r.hosts

/-- No API request changes the group/template/proxy catalogs. -/
theorem zapiApply_catalogs (r : Remote) (c : Call) :
    (zapiApply r c).groupCatalog = r.groupCatalog ∧
    (zapiApply r c).templateCatalog = r.templateCatalog ∧
    (zapiApply r c).proxyCatalog = r.proxyCatalog := by
  cases c <;> exact ⟨rfl, rfl, rfl⟩

/-- Effect of a template-link `host.update` on the addressed host, as seen by
both lookups. -/
theorem step_hostUpdateTemplates (r : Remote) (hid : Nat) (H : LiveHost)
    (tids : List Nat) (clr : Option (List Nat)) (n : String)
    (hfind : findHostById r hid = some H)
    (hname : host_get r n = some H) :
    findHostById (zapiApply r (.hostUpdateTemplates hid tids clr)) hid =
      some { H with templateids := tids } ∧
    host_get (zapiApply r (.hostUpdateTemplates hid tids clr)) n =
      some { H with templateids := tids } := by
  have hH : H.hostid = hid := findHostById_hostid r hid H hfind
  have h1 := findHostById_hosts_map r (zapiApply r (.hostUpdateTemplates hid tids clr))
    (fun h => if h.hostid = hid then { h with templateids := tids } else h) rfl
    (fun h => by by_cases hh : h.hostid = hid <;> simp [hh]) hid
  have h2 := host_get_hosts_map r (zapiApply r (.hostUpdateTemplates hid tids clr))
    (fun h => if h.hostid = hid then { h with templateids := tids } else h) rfl
    (fun h => by by_cases hh : h.hostid = hid <;> simp [hh]) n
  rw [hfind] at h1
  rw [hname] at h2
  simp only [Option.map_some', if_pos hH] at h1 h2
  exact ⟨h1, h2⟩

/-- Effect of the groups/status/proxy `host.update` on the addressed host. -/
theorem step_hostUpdateMain (r : Remote) (hid : Nat) (H : LiveHost)
    (gids : List Nat) (st : Int) (pid : String) (n : String)
    (hfind : findHostById r hid = some H)
    (hname : host_get r n = some H) :
    findHostById (zapiApply r (.hostUpdateMain hid gids st pid)) hid =
      some { H with groupids := gids, status := st, proxy_hostid := pid } ∧
    host_get (zapiApply r (.hostUpdateMain hid gids st pid)) n =
      some { H with groupids := gids, status := st, proxy_hostid := pid } := by
  have hH : H.hostid = hid := findHostById_hostid r hid H hfind
  have h1 := findHostById_hosts_map r (zapiApply r (.hostUpdateMain hid gids st pid))
    (fun h => if h.hostid = hid then
      { h with groupids := gids, status := st, proxy_hostid := pid } else h) rfl
    (fun h => by by_cases hh : h.hostid = hid <;> simp [hh]) hid
  have h2 := host_get_hosts_map r (zapiApply r (.hostUpdateMain hid gids st pid))
    (fun h => if h.hostid = hid then
      { h with groupids := gids, status := st, proxy_hostid := pid } else h) rfl
    (fun h => by by_cases hh : h.hostid = hid <;> simp [hh]) n
  rw [hfind] at h1
  rw [hname] at h2
  simp only [Option.map_some', if_pos hH] at h1 h2
  exact ⟨h1, h2⟩

/-- Effect of a `hostinterface.update` on the addressed host. -/
theorem step_ifaceUpdate (r : Remote) (hid : Nat) (H : LiveHost)
    (iid : Nat) (i : Interface) (n : String)
    (hfind : findHostById r hid = some H)
    (hname : host_get r n = some H) :
    findHostById (zapiApply r (.ifaceUpdate iid i)) hid =
      some { H with interfaces := H.interfaces.map (fun e =>
        if e.interfaceid = iid then overwriteInterface e i else e) } ∧
    host_get (zapiApply r (.ifaceUpdate iid i)) n =
      some { H with interfaces := H.interfaces.map (fun e =>
        if e.interfaceid = iid then overwriteInterface e i else e) } := by
  have h1 := findHostById_hosts_map r (zapiApply r (.ifaceUpdate iid i))
    (fun h => { h with interfaces := h.interfaces.map (fun e =>
      if e.interfaceid = iid then overwriteInterface e i else e) }) rfl
    (fun h => rfl) hid
  have h2 := host_get_hosts_map r (zapiApply r (.ifaceUpdate iid i))
    (fun h => { h with interfaces := h.interfaces.map (fun e =>
      if e.interfaceid = iid then overwriteInterface e i else e) }) rfl
    (fun h => rfl) n
  rw [hfind] at h1
  rw [hname] at h2
  simp only [Option.map_some'] at h1 h2
  exact ⟨h1, h2⟩

/-- Effect of a `hostinterface.create` on the addressed host. -/
theorem step_ifaceCreate (r : Remote) (hid : Nat) (H : LiveHost)
    (i : Interface) (n : String)
    (hfind : findHostById r hid = some H)
    (hname : host_get r n = some H) :
    findHostById (zapiApply r (.ifaceCreate hid i)) hid =
      some { H with interfaces := H.interfaces ++ [mkLiveInterface r.nextInterfaceId i] } ∧
    host_get (zapiApply r (.ifaceCreate hid i)) n =
      some { H with interfaces := H.interfaces ++ [mkLiveInterface r.nextInterfaceId i] } := by
  have hH : H.hostid = hid := findHostById_hostid r hid H hfind
  have h1 := findHostById_hosts_map r (zapiApply r (.ifaceCreate hid i))
    (fun h => if h.hostid = hid then
      { h with interfaces := h.interfaces ++ [mkLiveInterface r.nextInterfaceId i] } else h) rfl
    (fun h => by by_cases hh : h.hostid = hid <;> simp [hh]) hid
  have h2 := host_get_hosts_map r (zapiApply r (.ifaceCreate hid i))
    (fun h => if h.hostid = hid then
      { h with interfaces := h.interfaces ++ [mkLiveInterface r.nextInterfaceId i] } else h) rfl
    (fun h => by by_cases hh : h.hostid = hid <;> simp [hh]) n
  rw [hfind] at h1
  rw [hname] at h2
  simp only [Option.map_some', if_pos hH] at h1 h2
  exact ⟨h1, h2⟩

/-- Effect of a `hostinterface.delete` on the addressed host. -/
theorem step_ifaceDelete (r : Remote) (hid : Nat) (H : LiveHost)
    (iids : List Nat) (n : String)
    (hfind : findHostById r hid = some H)
    (hname : host_get r n = some H) :
    findHostById (zapiApply r (.ifaceDelete iids)) hid =
      some { H with interfaces := H.interfaces.filter (fun e => e.interfaceid ∉ iids) } ∧
    host_get (zapiApply r (.ifaceDelete iids)) n =
      some { H with interfaces := H.interfaces.filter (fun e => e.interfaceid ∉ iids) } := by
  have h1 := findHostById_hosts_map r (zapiApply r (.ifaceDelete iids))
    (fun h => { h with interfaces := h.interfaces.filter (fun e => e.interfaceid ∉ iids) }) rfl
    (fun h => rfl) hid
  have h2 := host_get_hosts_map r (zapiApply r (.ifaceDelete iids))
    (fun h => { h with interfaces := h.interfaces.filter (fun e => e.interfaceid ∉ iids) }) rfl
    (fun h => rfl) n
  rw [hfind] at h1
  rw [hname] at h2
  simp only [Option.map_some'] at h1 h2
  exact ⟨h1, h2⟩

/-- Overwriting keeps the interface id. -/
theorem overwriteInterface_id (e : LiveInterface) (i : Interface) :
    (overwriteInterface e i).interfaceid = e.interfaceid := rfl

/-- Overwriting installs exactly the desired fields. -/
theorem fieldsOf_overwrite (e : LiveInterface) (i : Interface) :
    fieldsOf (overwriteInterface e i) = i := rfl

/-- A created interface carries exactly the desired fields. -/
theorem fieldsOf_mk (m : Nat) (i : Interface) :
    fieldsOf (mkLiveInterface m i) = i := rfl

/-- `extractByType` splits its input into the extracted element and the
rest, up to permutation. -/
theorem extractByType_perm {copy copy' : List LiveInterface} {t : Int}
    {e' : LiveInterface} (h : extractByType copy t = some (e', copy')) :
    copy.Perm (e' :: copy') := by
  induction copy generalizing copy' with
  | nil => cases h
  | cons e es ih =>
    unfold extractByType at h
    by_cases he : e.type = t
    · rw [if_pos he] at h
      simp only [Option.some.injEq, Prod.mk.injEq] at h
      obtain ⟨rfl, rfl⟩ := h
      exact List.Perm.refl _
    · rw [if_neg he] at h
      cases hrec : extractByType es t with
      | none => rw [hrec] at h; cases h
      | some pr =>
        obtain ⟨e2, es2⟩ := pr
        rw [hrec] at h
        simp only [Option.some.injEq, Prod.mk.injEq] at h
        obtain ⟨rfl, rfl⟩ := h
        exact (List.Perm.cons e (ih hrec)).trans (List.Perm.swap _ _ _)

/-- Master invariant of the per-type interface loop (`Host.update_host`,
lines 229-245): starting from a found host whose interface ids are
duplicate-free and below the fresh-id counter, with a working list drawn
from that host, the loop touches only the interfaces of that host; the
working list shrinks to the leftover `rem`; interfaces outside the working
list survive untouched; every non-leftover interface of the result carries
either the fields of some desired interface or predates the loop outside the
working list; and every desired interface is realised by a non-leftover
result interface. -/
theorem interfaceSync_spec (hid : Nat) (n : String) (il : List Interface) :
    ∀ (copy : List LiveInterface) (r : Remote) (H : LiveHost),
    findHostById r hid = some H →
    host_get r n = some H →
    (H.interfaces.map (fun e => e.interfaceid)).Nodup →
    (∀ m ∈ H.interfaces.map (fun e => e.interfaceid), m < r.nextInterfaceId) →
    (∀ e ∈ copy, e.interfaceid ∈ H.interfaces.map (fun e => e.interfaceid)) →
    (copy.map (fun e => e.interfaceid)).Nodup →
    ∃ H',
      findHostById (interfaceSync hid il copy r).2.2 hid = some H' ∧
      host_get (interfaceSync hid il copy r).2.2 n = some H' ∧
      H' = { H with interfaces := H'.interfaces } ∧
      (interfaceSync hid il copy r).2.2.groupCatalog = r.groupCatalog ∧
      (interfaceSync hid il copy r).2.2.templateCatalog = r.templateCatalog ∧
      (interfaceSync hid il copy r).2.2.proxyCatalog = r.proxyCatalog ∧
      (interfaceSync hid il copy r).2.1 ⊆ copy ∧
      (∀ e ∈ H.interfaces, e.interfaceid ∉ copy.map (fun x => x.interfaceid) →
        e ∈ H'.interfaces) ∧
      (∀ e ∈ H'.interfaces,
        e.interfaceid ∉ (interfaceSync hid il copy r).2.1.map (fun x => x.interfaceid) →
        (fieldsOf e ∈ il ∨
          (e ∈ H.interfaces ∧ e.interfaceid ∉ copy.map (fun x => x.interfaceid)))) ∧
      (∀ i ∈ il, ∃ e ∈ H'.interfaces, fieldsOf e = i ∧
        e.interfaceid ∉ (interfaceSync hid il copy r).2.1.map (fun x => x.interfaceid)) := by
  induction il with
  | nil =>
    intro copy r H hfind hname hnd hbound hcopy hcopynd
    refine ⟨H, hfind, hname, rfl, rfl, rfl, rfl, fun x hx => hx, ?_, ?_, ?_⟩
    · intro e he _
      exact he
    · intro e he hrem
      exact Or.inr ⟨he, hrem⟩
    · intro i hi
      cases hi
  | cons i rest ih =>
    intro copy r H hfind hname hnd hbound hcopy hcopynd
    cases hex : extractByType copy i.type with
    | some pr =>
      obtain ⟨e0, copy'⟩ := pr
      have hres : interfaceSync hid (i :: rest) copy r =
          (Call.ifaceUpdate e0.interfaceid i ::
            (interfaceSync hid rest copy'
              (zapiApply r (Call.ifaceUpdate e0.interfaceid i))).1,
           (interfaceSync hid rest copy'
              (zapiApply r (Call.ifaceUpdate e0.interfaceid i))).2.1,
           (interfaceSync hid rest copy'
              (zapiApply r (Call.ifaceUpdate e0.interfaceid i))).2.2) := by
        simp only [interfaceSync, hex]
      obtain ⟨hfind1, hname1⟩ := step_ifaceUpdate r hid H e0.interfaceid i n hfind hname
      have hperm := extractByType_perm hex
      have hpermids : (copy.map (fun x => x.interfaceid)).Perm
          (e0.interfaceid :: copy'.map (fun x => x.interfaceid)) :=
        hperm.map (fun x => x.interfaceid)
      have hids1 : (H.interfaces.map (fun e =>
            if e.interfaceid = e0.interfaceid then overwriteInterface e i else e)).map
          (fun e => e.interfaceid) = H.interfaces.map (fun e => e.interfaceid) := by
        rw [List.map_map]
        apply List.map_congr_left
        intro e _
        by_cases hc : e.interfaceid = e0.interfaceid
        · simp [hc, overwriteInterface_id]
        · simp [hc]
      have hsub' : copy' ⊆ copy := fun x hx =>
        hperm.mem_iff.mpr (List.mem_cons_of_mem _ hx)
      have hcopy' : ∀ e ∈ copy', e.interfaceid ∈
          (H.interfaces.map (fun e =>
            if e.interfaceid = e0.interfaceid then overwriteInterface e i else e)).map
            (fun e => e.interfaceid) := by
        intro e he
        rw [hids1]
        exact hcopy e (hsub' he)
      have hcopynd' : (copy'.map (fun x => x.interfaceid)).Nodup := by
        have h1 : ((e0 :: copy').map (fun x => x.interfaceid)).Nodup :=
          (hpermids.nodup_iff).mp hcopynd
        rw [List.map_cons, List.nodup_cons] at h1
        exact h1.2
      have he0notin : e0.interfaceid ∉ copy'.map (fun x => x.interfaceid) := by
        have h1 : ((e0 :: copy').map (fun x => x.interfaceid)).Nodup :=
          (hpermids.nodup_iff).mp hcopynd
        rw [List.map_cons, List.nodup_cons] at h1
        exact h1.1
      obtain ⟨H', c1, c2, c3, c4, c5, c6, c7, c8, c9, c10⟩ :=
        ih copy' (zapiApply r (Call.ifaceUpdate e0.interfaceid i))
          { H with interfaces := H.interfaces.map (fun e =>
              if e.interfaceid = e0.interfaceid then overwriteInterface e i else e) }
          hfind1 hname1 (by rw [hids1]; exact hnd)
          (by intro m hm; rw [hids1] at hm; exact hbound m hm)
          hcopy' hcopynd'
      rw [hres]
      refine ⟨H', c1, c2, c3, ?_, ?_, ?_, fun x hx => hsub' (c7 hx), ?_, ?_, ?_⟩
      · exact c4
      · exact c5
      · exact c6
      · -- persistence
        intro e he hnot
        have hne0 : e.interfaceid ≠ e0.interfaceid := by
          intro hEq
          apply hnot
          rw [hEq]
          exact List.mem_map.mpr ⟨e0, extractByType_mem hex, rfl⟩
        have he1 : e ∈ H.interfaces.map (fun e =>
            if e.interfaceid = e0.interfaceid then overwriteInterface e i else e) := by
          refine List.mem_map.mpr ⟨e, he, ?_⟩
          rw [if_neg hne0]
        refine c8 e he1 ?_
        intro hmem
        exact hnot (hpermids.mem_iff.mpr (List.mem_cons_of_mem _ hmem))
      · -- G1
        intro e he hrem
        rcases c9 e he hrem with hfld | ⟨he1, hnotin'⟩
        · exact Or.inl (List.mem_cons_of_mem _ hfld)
        · rcases List.mem_map.mp he1 with ⟨e1, he1m, he1e⟩
          by_cases hc : e1.interfaceid = e0.interfaceid
          · rw [if_pos hc] at he1e
            left
            rw [← he1e, fieldsOf_overwrite]
            exact List.mem_cons_self _ _
          · rw [if_neg hc] at he1e
            subst he1e
            right
            refine ⟨he1m, ?_⟩
            intro hmem
            rcases List.mem_cons.mp ((hpermids.mem_iff).mp hmem) with hEq | hmem'
            · exact hc hEq
            · exact hnotin' hmem'
      · -- G2
        intro j hj
        rcases List.mem_cons.mp hj with rfl | hj2
        · -- the head: realised by the updated interface
          have he0id : e0.interfaceid ∈ H.interfaces.map (fun e => e.interfaceid) :=
            hcopy e0 (extractByType_mem hex)
          rcases List.mem_map.mp he0id with ⟨e1, he1m, he1id⟩
          have heU : overwriteInterface e1 j ∈ H.interfaces.map (fun e =>
              if e.interfaceid = e0.interfaceid then overwriteInterface e j else e) :=
            List.mem_map.mpr ⟨e1, he1m, by rw [if_pos he1id]⟩
          have hidU : (overwriteInterface e1 j).interfaceid ∉
              copy'.map (fun x => x.interfaceid) := by
            rw [overwriteInterface_id, he1id]
            exact he0notin
          have hfin : overwriteInterface e1 j ∈ H'.interfaces := c8 _ heU hidU
          refine ⟨overwriteInterface e1 j, hfin, fieldsOf_overwrite _ _, ?_⟩
          intro hmem
          apply hidU
          exact List.map_subset _ c7 hmem
        · obtain ⟨e, hem, hfld, hid'⟩ := c10 j hj2
          exact ⟨e, hem, hfld, hid'⟩
    | none =>
      have hres : interfaceSync hid (i :: rest) copy r =
          (Call.ifaceCreate hid i ::
            (interfaceSync hid rest copy (zapiApply r (Call.ifaceCreate hid i))).1,
           (interfaceSync hid rest copy (zapiApply r (Call.ifaceCreate hid i))).2.1,
           (interfaceSync hid rest copy (zapiApply r (Call.ifaceCreate hid i))).2.2) := by
        simp only [interfaceSync, hex]
      obtain ⟨hfind1, hname1⟩ := step_ifaceCreate r hid H i n hfind hname
      have hnew_notin : r.nextInterfaceId ∉ H.interfaces.map (fun e => e.interfaceid) := by
        intro hmem
        exact absurd (hbound _ hmem) (lt_irrefl _)
      have hids1 : (H.interfaces ++ [mkLiveInterface r.nextInterfaceId i]).map
          (fun e => e.interfaceid) =
          H.interfaces.map (fun e => e.interfaceid) ++ [r.nextInterfaceId] := by
        rw [List.map_append]
        rfl
      have hcopy1 : ∀ e ∈ copy, e.interfaceid ∈
          (H.interfaces ++ [mkLiveInterface r.nextInterfaceId i]).map
            (fun e => e.interfaceid) := by
        intro e he
        rw [hids1]
        exact List.mem_append_left _ (hcopy e he)
      obtain ⟨H', c1, c2, c3, c4, c5, c6, c7, c8, c9, c10⟩ :=
        ih copy (zapiApply r (Call.ifaceCreate hid i))
          { H with interfaces := H.interfaces ++ [mkLiveInterface r.nextInterfaceId i] }
          hfind1 hname1
          (by
            rw [hids1]
            rw [List.nodup_append]
            refine ⟨hnd, List.nodup_singleton _, ?_⟩
            intro a ha hb
            rw [List.mem_singleton] at hb
            subst hb
            exact hnew_notin ha)
          (by
            intro m hm
            rw [hids1] at hm
            rcases List.mem_append.mp hm with hm1 | hm1
            · have := hbound m hm1
              have hnext : (zapiApply r (Call.ifaceCreate hid i)).nextInterfaceId =
                  r.nextInterfaceId + 1 := rfl
              rw [hnext]
              exact Nat.lt_succ_of_lt this
            · rw [List.mem_singleton] at hm1
              subst hm1
              have hnext : (zapiApply r (Call.ifaceCreate hid i)).nextInterfaceId =
                  r.nextInterfaceId + 1 := rfl
              rw [hnext]
              exact Nat.lt_succ_self _)
          hcopy1 hcopynd
      rw [hres]
      refine ⟨H', c1, c2, c3, ?_, ?_, ?_, c7, ?_, ?_, ?_⟩
      · exact c4
      · exact c5
      · exact c6
      · -- persistence
        intro e he hnot
        exact c8 e (List.mem_append_left _ he) hnot
      · -- G1
        intro e he hrem
        rcases c9 e he hrem with hfld | ⟨he1, hnotin'⟩
        · exact Or.inl (List.mem_cons_of_mem _ hfld)
        · rcases List.mem_append.mp he1 with he2 | he2
          · exact Or.inr ⟨he2, hnotin'⟩
          · rw [List.mem_singleton] at he2
            subst he2
            left
            rw [fieldsOf_mk]
            exact List.mem_cons_self _ _
      · -- G2
        intro j hj
        rcases List.mem_cons.mp hj with rfl | hj2
        · have hidN : (mkLiveInterface r.nextInterfaceId j).interfaceid ∉
              copy.map (fun x => x.interfaceid) := by
            intro hmem
            have : (mkLiveInterface r.nextInterfaceId j).interfaceid ∈
                H.interfaces.map (fun e => e.interfaceid) := by
              rcases List.mem_map.mp hmem with ⟨x, hx, hxid⟩
              rw [← hxid]
              exact hcopy x hx
            exact hnew_notin this
          have hfin : mkLiveInterface r.nextInterfaceId j ∈ H'.interfaces :=
            c8 _ (List.mem_append_right _ (List.mem_singleton_self _)) hidN
          refine ⟨mkLiveInterface r.nextInterfaceId j, hfin, fieldsOf_mk _ _, ?_⟩
          intro hmem
          apply hidN
          exact List.map_subset _ c7 hmem
        · obtain ⟨e, hem, hfld, hid'⟩ := c10 j hj2
          exact ⟨e, hem, hfld, hid'⟩

/-- Splitting a successful resolution into its three stages. -/
theorem resolveAll_ok_inv (r : Remote) (p : Params) (tids gids : List Nat)
    (pid : String) (h : resolveAll r p = .ok (tids, gids, pid)) :
    resolveTemplates r p = .ok tids ∧ resolveGroups r p = .ok gids ∧
      resolveProxy r p = .ok pid := by
  unfold resolveAll at h
  cases h1 : resolveTemplates r p with
  | error m => rw [h1] at h; cases h
  | ok t =>
    rw [h1] at h
    cases h2 : resolveGroups r p with
    | error m => rw [h2] at h; cases h
    | ok g =>
      rw [h2] at h
      cases h3 : resolveProxy r p with
      | error m => rw [h3] at h; cases h
      | ok pd =>
        rw [h3] at h
        simp only [Except.ok.injEq, Prod.mk.injEq] at h
        obtain ⟨ht, hg, hp⟩ := h
        subst ht
        subst hg
        subst hp
        exact ⟨rfl, rfl, rfl⟩

/-- Outside check mode `add_host` issues `host.create`. -/
theorem add_host_false_eq (r : Remote) (n : String) (g : List Nat) (st : Int)
    (il : List Interface) (pid : String) :
    add_host false r n g st il pid =
      Sum.inr (r.nextHostId, [Call.hostCreate n g st il pid],
        zapiApply r (Call.hostCreate n g st il pid)) := rfl

/-- When the host does not exist and check mode is off, `main` never reaches
`exit_json`: it either fails a validation or crashes after `host.create`. -/
theorem mainRun_no_host_never_exits (p : Params) (r : Remote)
    (hex : is_host_exist r p.host_name = false) (hcm : p.checkMode = false)
    (c : Bool) (msg : String) :
    (mainRun p r).outcome ≠ Outcome.exited c msg := by
  unfold mainRun
  cases hres : resolveAll r p with
  | error m =>
    intro hcon
    exact Outcome.noConfusion hcon
  | ok trip =>
    obtain ⟨tids, gids, pid⟩ := trip
    simp only [hex, Bool.false_eq_true, if_false]
    by_cases hg : gids.isEmpty
    · rw [if_pos hg]
      intro hcon
      exact Outcome.noConfusion hcon
    · rw [if_neg hg]
      by_cases hi : p.interfaces.isEmpty
      · rw [if_pos hi]
        intro hcon
        exact Outcome.noConfusion hcon
      · rw [if_neg hi, hcm, add_host_false_eq]
        intro hcon
        exact Outcome.noConfusion hcon

/-- With an existing host, state `present`, a non-empty group list and
`force` unset, `main` fails with the force message. -/
theorem mainRun_noforce (p : Params) (r : Remote) (h : LiveHost)
    (tids gids : List Nat) (pid : String)
    (hres : resolveAll r p = .ok (tids, gids, pid))
    (hhost : host_get r p.host_name = some h)
    (hstate : p.state = "present") (hgne : gids ≠ [])
    (hforce : p.force = false) :
    mainRun p r = ⟨Outcome.failed "Host present, Can't update configuration without force",
      [], r⟩ := by
  have hex : is_host_exist r p.host_name = true := by
    rw [is_host_exist, hhost]
    rfl
  unfold mainRun
  rw [hres]
  simp only [hex, hhost, hstate, if_true]
  rw [if_neg (by simp), if_neg (by simpa [List.isEmpty_iff] using hgne),
    if_pos (by rw [hforce]; rfl)]

/-- Dissecting any `exit_json` run with state `present` outside check mode:
the references resolved, the host was found, a group resolved and `force`
was set. -/
theorem mainRun_exits_present (p : Params) (r : Remote) (c : Bool) (msg : String)
    (hstate : p.state = "present") (hcm : p.checkMode = false)
    (hexit : (mainRun p r).outcome = Outcome.exited c msg) :
    ∃ tids gids pid h, resolveAll r p = .ok (tids, gids, pid) ∧
      host_get r p.host_name = some h ∧ gids ≠ [] ∧ p.force = true := by
  cases hres : resolveAll r p with
  | error m =>
    rw [mainRun_resolve_error p r m hres] at hexit
    exact Outcome.noConfusion hexit
  | ok trip =>
    obtain ⟨tids, gids, pid⟩ := trip
    obtain ⟨ht, hg, hp⟩ := resolveAll_ok_inv r p tids gids pid hres
    by_cases hex : is_host_exist r p.host_name = true
    · cases hhost : host_get r p.host_name with
      | none =>
        exfalso
        rw [is_host_exist, hhost] at hex
        cases hex
      | some h =>
        have hgne : gids ≠ [] := by
          intro hnil
          subst hnil
          rw [mainRun_present_nogroup p r h tids pid ht hg hp hhost hstate] at hexit
          exact Outcome.noConfusion hexit
        refine ⟨tids, gids, pid, h, rfl, rfl, hgne, ?_⟩
        by_cases hf : p.force = true
        · exact hf
        · exfalso
          rw [Bool.not_eq_true] at hf
          rw [mainRun_noforce p r h tids gids pid hres hhost hstate hgne hf] at hexit
          exact Outcome.noConfusion hexit
    · exfalso
      rw [Bool.not_eq_true] at hex
      exact mainRun_no_host_never_exits p r hex hcm c msg hexit

/-- The changed path of `main` on an existing host in replace mode: link the
templates (with clear list), update groups/status/proxy, reconcile the
interfaces, and exit `changed=true`; the final remote is the interface
section's result on the doubly-updated server. -/
theorem mainRun_update_path (p : Params) (r : Remote) (h : LiveHost)
    (tids gids : List Nat) (pid : String)
    (hres : resolveAll r p = .ok (tids, gids, pid))
    (hhost : host_get r p.host_name = some h)
    (hstate : p.state = "present") (hgne : gids ≠ []) (hforce : p.force = true)
    (hcm : p.checkMode = false) (hclear : p.clear = true)
    (hdiff : check_all_properties r h.hostid p.host_groups (statusOf p)
      p.interfaces tids (get_host_interfaces r h.hostid) h pid = true) :
    ∃ cs, mainRun p r = ⟨Outcome.exited true ("Successfully update host "
        ++ p.host_name ++ " (" ++ computeIp p.interfaces ++ ")"), cs,
      (update_host_interface_section h.hostid p.interfaces
        (get_host_interfaces r h.hostid)
        (zapiApply (zapiApply r (linkClearCall r h.hostid tids))
          (Call.hostUpdateMain h.hostid gids (statusOf p) pid))).2⟩ := by
  have hex : is_host_exist r p.host_name = true := by
    rw [is_host_exist, hhost]
    rfl
  unfold mainRun
  rw [hres]
  simp only [hex, hhost, hstate, hforce, hcm, hclear, if_true]
  rw [if_neg (by simp), if_neg (by simpa [List.isEmpty_iff] using hgne),
    if_neg (by simp), if_pos hdiff]
  simp only [link_or_clear_template_clear_eq, update_host_clear_eq]
  exact ⟨_, rfl⟩

/-- All group names that pass `check_host_group_exist` occur in the
catalog. -/
theorem check_ok_all_found (r : Remote) (gs : List String) (b : Bool)
    (h : check_host_group_exist r gs = .ok b) :
    ∀ g ∈ gs, ∃ q ∈ r.groupCatalog, q.1 = g := by
  induction gs with
  | nil => intro g hg; cases hg
  | cons g0 gs ih =>
    unfold check_host_group_exist at h
    by_cases hl : (lookupGroupId r g0).isNone
    · rw [if_pos hl] at h
      cases h
    · rw [if_neg hl] at h
      intro g hg
      rcases List.mem_cons.mp hg with rfl | hg2
      · cases hfind : r.groupCatalog.find? (fun q => q.1 == g) with
        | none =>
          exfalso
          apply hl
          unfold lookupGroupId
          rw [hfind]
          rfl
        | some q =>
          refine ⟨q, List.mem_of_find?_eq_some hfind, ?_⟩
          have := List.find?_some hfind
          simpa using this
      · exact ih h g hg2

/-- Shape of a successful group resolution. -/
theorem get_group_ids_ok_form (r : Remote) (gs : List String) (gids : List Nat)
    (h : get_group_ids_by_group_names r gs = .ok gids) :
    (∀ g ∈ gs, ∃ q ∈ r.groupCatalog, q.1 = g) ∧
      gids = (r.groupCatalog.filter (fun q => q.1 ∈ gs)).map (fun q => q.2) := by
  unfold get_group_ids_by_group_names at h
  cases hc : check_host_group_exist r gs with
  | error m => rw [hc] at h; cases h
  | ok b =>
    rw [hc] at h
    simp only [Except.ok.injEq] at h
    exact ⟨check_ok_all_found r gs b hc, h.symm⟩

/-- After a replace-mode update the host's group names resolve back to
exactly the desired names, as sets. -/
theorem groups_roundtrip_sameSet (r2 : Remote) (hid : Nat) (h2 : LiveHost)
    (host_groups : List String)
    (hfind : findHostById r2 hid = some h2)
    (hids : (r2.groupCatalog.map Prod.snd).Nodup)
    (hg2 : h2.groupids = (r2.groupCatalog.filter
      (fun q => q.1 ∈ host_groups)).map (fun q => q.2))
    (hexist : ∀ n ∈ host_groups, ∃ q ∈ r2.groupCatalog, q.1 = n) :
    sameSet host_groups (get_host_groups_by_host_id r2 hid) = true := by
  have hnames : get_host_groups_by_host_id r2 hid =
      (r2.groupCatalog.filter (fun q => q.2 ∈ h2.groupids)).map (fun q => q.1) := by
    rw [get_host_groups_by_host_id, hfind]
  rw [sameSet_iff]
  constructor
  · intro n hn
    obtain ⟨q, hq, hq1⟩ := hexist n hn
    rw [hnames]
    refine List.mem_map.mpr ⟨q, ?_, hq1⟩
    rw [List.mem_filter]
    refine ⟨hq, decide_eq_true ?_⟩
    rw [hg2]
    refine List.mem_map.mpr ⟨q, ?_, rfl⟩
    rw [List.mem_filter]
    refine ⟨hq, decide_eq_true ?_⟩
    rw [hq1]
    exact hn
  · intro n hn
    rw [hnames] at hn
    rcases List.mem_map.mp hn with ⟨q, hqf, hq1⟩
    rw [List.mem_filter] at hqf
    obtain ⟨hqc, hq2⟩ := hqf
    have hq2' : q.2 ∈ h2.groupids := of_decide_eq_true hq2
    rw [hg2] at hq2'
    rcases List.mem_map.mp hq2' with ⟨q', hq'f, hq'2⟩
    rw [List.mem_filter] at hq'f
    obtain ⟨hq'c, hq'1⟩ := hq'f
    have hqq : q' = q := nodup_map_inj Prod.snd r2.groupCatalog q' q hids hq'c hqc hq'2
    have : q.1 ∈ host_groups := by
      rw [← hqq]
      exact of_decide_eq_true hq'1
    rw [← hq1]
    exact this

/-- The interface diff is empty when the live list realises exactly the
desired field records and the desired ports are duplicate-free. -/
theorem check_interfaces_of_fields (L : List LiveInterface) (il : List Interface)
    (hports : (il.map (fun i => i.port)).Nodup)
    (hG1 : ∀ e ∈ L, fieldsOf e ∈ il)
    (hG2 : ∀ i ∈ il, ∃ e ∈ L, fieldsOf e = i) :
    check_interface_properties L il = false := by
  rw [check_interface_properties_false_iff]
  constructor
  · intro q
    constructor
    · rintro ⟨i, hi, hq⟩
      obtain ⟨e, he, hfe⟩ := hG2 i hi
      refine ⟨e, he, ?_⟩
      have : (fieldsOf e).port = i.port := by rw [hfe]
      simpa [fieldsOf] using this.trans hq
    · rintro ⟨e, he, hq⟩
      refine ⟨fieldsOf e, hG1 e he, ?_⟩
      simpa [fieldsOf] using hq
  · intro e he i hi hpq
    have hfe : fieldsOf e ∈ il := hG1 e he
    have hpe : (fieldsOf e).port = i.port := by
      simp only [fieldsOf]
      rw [hpq]
    have : fieldsOf e = i :=
      nodup_map_inj (fun i => i.port) il (fieldsOf e) i hports hfe hi hpe
    rw [← this]
    exact fieldsMatch_fieldsOf e

/-- `check_all_properties` is false when each of its five comparisons
agrees. -/
theorem check_all_properties_false_intro (r2 : Remote) (hid : Nat)
    (host_groups : List String) (st : Int) (il : List Interface)
    (tids : List Nat) (el : List LiveInterface) (h2 : LiveHost) (pid : String)
    (h1 : sameSet host_groups (get_host_groups_by_host_id r2 hid) = true)
    (h2s : st = h2.status)
    (h3 : check_interface_properties el il = false)
    (h4 : sameSet tids (get_host_templates_by_host_id r2 hid) = true)
    (h5 : h2.proxy_hostid = pid) :
    check_all_properties r2 hid host_groups st il tids el h2 pid = false := by
  unfold check_all_properties get_host_status_by_host
  rw [h1, h3, h4, h2s, h5]
  simp

/-- **C4 (amended)**: reconciliation is idempotent in replace mode: with
`state=present`, `clear=true`, `force=true`, check mode off, a non-empty
desired interface list with pairwise-distinct ports, and a well-formed
server, any first run that reaches `exit_json` leaves a remote state on
which a second run with the same desired spec exits `changed=false` without
issuing any call.  (The merge-mode counterexample shows the unrestricted
claim is false.) -/
theorem C4_amended_replace_mode_idempotent (p : Params) (r : Remote)
    (c : Bool) (msg : String)
    (hstate : p.state = "present") (hclear : p.clear = true)
    (hforce : p.force = true) (hcm : p.checkMode = false)
    (hil : p.interfaces ≠ [])
    (hports : (p.interfaces.map (fun i => i.port)).Nodup)
    (hwf : Remote.wf r)
    (hexit : (mainRun p r).outcome = Outcome.exited c msg) :
    mainRun p (mainRun p r).remote =
      ⟨Outcome.exited false "", [], (mainRun p r).remote⟩ := by
  obtain ⟨hwf1, hwf2, hwf3, hwf4, hwf5⟩ := hwf
  obtain ⟨tids, gids, pid, h, hres, hhost, hgne, _⟩ :=
    mainRun_exits_present p r c msg hstate hcm hexit
  obtain ⟨ht, hg, hp⟩ := resolveAll_ok_inv r p tids gids pid hres
  by_cases hdiff : check_all_properties r h.hostid p.host_groups (statusOf p)
      p.interfaces tids (get_host_interfaces r h.hostid) h pid = true
  case neg =>
    rw [Bool.not_eq_true] at hdiff
    have h1 : mainRun p r = ⟨Outcome.exited false "", [], r⟩ :=
      mainRun_no_diff p r h tids gids pid ht hg hp hhost hstate hgne hforce hdiff
    rw [h1]
    exact h1
  case pos =>
    obtain ⟨cs, hrun1⟩ :=
      mainRun_update_path p r h tids gids pid hres hhost hstate hgne hforce
        hcm hclear hdiff
    have hmemh : h ∈ r.hosts := (host_get_spec r p.host_name h hhost).2
    have hfind0 : findHostById r h.hostid = some h :=
      find_by_id_of_mem r.hosts h hwf3 hmemh
    have hel : get_host_interfaces r h.hostid = h.interfaces := by
      rw [get_host_interfaces, hfind0]
    -- the two scalar updates
    obtain ⟨hfindT, hnameT⟩ := step_hostUpdateTemplates r h.hostid h
      (setList tids)
      (some ((setList (get_host_templates_by_host_id r h.hostid)).filter
        (fun t => t ∉ setList tids))) p.host_name hfind0 hhost
    obtain ⟨hfindM, hnameM⟩ := step_hostUpdateMain
      (zapiApply r (linkClearCall r h.hostid tids)) h.hostid
      { h with templateids := setList tids } gids (statusOf p) pid p.host_name
      hfindT hnameT
    -- the interface loop
    obtain ⟨H', s1, s2, s3, s4, s5, s6, s7, s8, s9, s10⟩ :=
      interfaceSync_spec h.hostid p.host_name p.interfaces
        (get_host_interfaces r h.hostid)
        (zapiApply (zapiApply r (linkClearCall r h.hostid tids))
          (Call.hostUpdateMain h.hostid gids (statusOf p) pid))
        { { h with templateids := setList tids } with
            groupids := gids, status := statusOf p, proxy_hostid := pid }
        hfindM hnameM
        (hwf4 h hmemh)
        (by
          intro m hm
          exact hwf5 h hmemh m hm)
        (by
          intro e he
          rw [hel] at he
          exact List.mem_map.mpr ⟨e, he, rfl⟩)
        (by
          rw [hel]
          exact hwf4 h hmemh)
    -- name the loop result
    have hsec : update_host_interface_section h.hostid p.interfaces
        (get_host_interfaces r h.hostid)
        (zapiApply (zapiApply r (linkClearCall r h.hostid tids))
          (Call.hostUpdateMain h.hostid gids (statusOf p) pid)) =
        deleteLeftover (interfaceSync h.hostid p.interfaces
          (get_host_interfaces r h.hostid)
          (zapiApply (zapiApply r (linkClearCall r h.hostid tids))
            (Call.hostUpdateMain h.hostid gids (statusOf p) pid))) := by
      unfold update_host_interface_section
      rw [if_neg (by simpa [List.isEmpty_iff] using hil)]
    -- characterize the post-delete host
    have hmain : ∃ h2 : LiveHost,
        findHostById (update_host_interface_section h.hostid p.interfaces
          (get_host_interfaces r h.hostid)
          (zapiApply (zapiApply r (linkClearCall r h.hostid tids))
            (Call.hostUpdateMain h.hostid gids (statusOf p) pid))).2 h.hostid = some h2 ∧
        host_get (update_host_interface_section h.hostid p.interfaces
          (get_host_interfaces r h.hostid)
          (zapiApply (zapiApply r (linkClearCall r h.hostid tids))
            (Call.hostUpdateMain h.hostid gids (statusOf p) pid))).2 p.host_name = some h2 ∧
        h2.hostid = h.hostid ∧ h2.status = statusOf p ∧
        h2.proxy_hostid = pid ∧ h2.groupids = gids ∧
        h2.templateids = setList tids ∧
        (∀ e ∈ h2.interfaces, fieldsOf e ∈ p.interfaces) ∧
        (∀ i ∈ p.interfaces, ∃ e ∈ h2.interfaces, fieldsOf e = i) ∧
        (update_host_interface_section h.hostid p.interfaces
          (get_host_interfaces r h.hostid)
          (zapiApply (zapiApply r (linkClearCall r h.hostid tids))
            (Call.hostUpdateMain h.hostid gids (statusOf p) pid))).2.groupCatalog = r.groupCatalog ∧
        (update_host_interface_section h.hostid p.interfaces
          (get_host_interfaces r h.hostid)
          (zapiApply (zapiApply r (linkClearCall r h.hostid tids))
            (Call.hostUpdateMain h.hostid gids (statusOf p) pid))).2.templateCatalog = r.templateCatalog ∧
        (update_host_interface_section h.hostid p.interfaces
          (get_host_interfaces r h.hostid)
          (zapiApply (zapiApply r (linkClearCall r h.hostid tids))
            (Call.hostUpdateMain h.hostid gids (statusOf p) pid))).2.proxyCatalog = r.proxyCatalog := by
      rw [hsec]
      have hH'stat : H'.status = statusOf p := by rw [s3]
      have hH'prox : H'.proxy_hostid = pid := by rw [s3]
      have hH'gids : H'.groupids = gids := by rw [s3]
      have hH'tids : H'.templateids = setList tids := by rw [s3]
      have hH'id : H'.hostid = h.hostid := by rw [s3]
      by_cases hlen : ((interfaceSync h.hostid p.interfaces
          (get_host_interfaces r h.hostid)
          (zapiApply (zapiApply r (linkClearCall r h.hostid tids))
            (Call.hostUpdateMain h.hostid gids (statusOf p) pid))).2.1.map
          (fun e => e.interfaceid)).length > 0
      · -- a delete is issued
        have hdel : deleteLeftover (interfaceSync h.hostid p.interfaces
            (get_host_interfaces r h.hostid)
            (zapiApply (zapiApply r (linkClearCall r h.hostid tids))
              (Call.hostUpdateMain h.hostid gids (statusOf p) pid))) =
            ((interfaceSync h.hostid p.interfaces
              (get_host_interfaces r h.hostid)
              (zapiApply (zapiApply r (linkClearCall r h.hostid tids))
                (Call.hostUpdateMain h.hostid gids (statusOf p) pid))).1 ++
              [Call.ifaceDelete ((interfaceSync h.hostid p.interfaces
                (get_host_interfaces r h.hostid)
                (zapiApply (zapiApply r (linkClearCall r h.hostid tids))
                  (Call.hostUpdateMain h.hostid gids (statusOf p) pid))).2.1.map
                (fun e => e.interfaceid))],
              zapiApply (interfaceSync h.hostid p.interfaces
                (get_host_interfaces r h.hostid)
                (zapiApply (zapiApply r (linkClearCall r h.hostid tids))
                  (Call.hostUpdateMain h.hostid gids (statusOf p) pid))).2.2
                (Call.ifaceDelete ((interfaceSync h.hostid p.interfaces
                  (get_host_interfaces r h.hostid)
                  (zapiApply (zapiApply r (linkClearCall r h.hostid tids))
                    (Call.hostUpdateMain h.hostid gids (statusOf p) pid))).2.1.map
                  (fun e => e.interfaceid)))) := by
          unfold deleteLeftover
          rw [if_pos hlen]
        rw [hdel]
        obtain ⟨hfindD, hnameD⟩ := step_ifaceDelete _ h.hostid H'
          ((interfaceSync h.hostid p.interfaces
            (get_host_interfaces r h.hostid)
            (zapiApply (zapiApply r (linkClearCall r h.hostid tids))
              (Call.hostUpdateMain h.hostid gids (statusOf p) pid))).2.1.map
            (fun e => e.interfaceid)) p.host_name s1 s2
        refine ⟨_, hfindD, hnameD, hH'id, hH'stat, hH'prox, hH'gids, hH'tids,
          ?_, ?_, s4, s5, s6⟩
        · intro e he
          rw [List.mem_filter] at he
          obtain ⟨heH, hedec⟩ := he
          have hnotrem := of_decide_eq_true hedec
          rcases s9 e heH hnotrem with hfld | ⟨heold, hnotin⟩
          · exact hfld
          · exfalso
            apply hnotin
            have : e ∈ h.interfaces := heold
            rw [hel]
            exact List.mem_map.mpr ⟨e, this, rfl⟩
        · intro i hi
          obtain ⟨e, heH, hfld, hnotrem⟩ := s10 i hi
          refine ⟨e, ?_, hfld⟩
          rw [List.mem_filter]
          exact ⟨heH, decide_eq_true hnotrem⟩
      · -- nothing left to delete
        have hdel : deleteLeftover (interfaceSync h.hostid p.interfaces
            (get_host_interfaces r h.hostid)
            (zapiApply (zapiApply r (linkClearCall r h.hostid tids))
              (Call.hostUpdateMain h.hostid gids (statusOf p) pid))) =
            ((interfaceSync h.hostid p.interfaces
              (get_host_interfaces r h.hostid)
              (zapiApply (zapiApply r (linkClearCall r h.hostid tids))
                (Call.hostUpdateMain h.hostid gids (statusOf p) pid))).1,
             (interfaceSync h.hostid p.interfaces
              (get_host_interfaces r h.hostid)
              (zapiApply (zapiApply r (linkClearCall r h.hostid tids))
                (Call.hostUpdateMain h.hostid gids (statusOf p) pid))).2.2) := by
          unfold deleteLeftover
          rw [if_neg hlen]
        rw [hdel]
        have hremnil : (interfaceSync h.hostid p.interfaces
            (get_host_interfaces r h.hostid)
            (zapiApply (zapiApply r (linkClearCall r h.hostid tids))
              (Call.hostUpdateMain h.hostid gids (statusOf p) pid))).2.1 = [] := by
          have := Nat.eq_zero_of_not_pos hlen
          rw [List.length_map] at this
          exact List.length_eq_zero.mp this
        refine ⟨H', s1, s2, hH'id, hH'stat, hH'prox, hH'gids, hH'tids,
          ?_, ?_, s4, s5, s6⟩
        · intro e he
          have hnotrem : e.interfaceid ∉ ((interfaceSync h.hostid p.interfaces
              (get_host_interfaces r h.hostid)
              (zapiApply (zapiApply r (linkClearCall r h.hostid tids))
                (Call.hostUpdateMain h.hostid gids (statusOf p) pid))).2.1.map
              (fun x => x.interfaceid)) := by
            rw [hremnil]
            intro hmem
            cases hmem
          rcases s9 e he hnotrem with hfld | ⟨heold, hnotin⟩
          · exact hfld
          · exfalso
            apply hnotin
            rw [hel]
            exact List.mem_map.mpr ⟨e, heold, rfl⟩
        · intro i hi
          obtain ⟨e, heH, hfld, _⟩ := s10 i hi
          exact ⟨e, heH, hfld⟩
    -- run 2
    obtain ⟨h2, hfind2, hname2, h2id, h2st, h2px, h2g, h2t, hG1, hG2,
      hcat1, hcat2, hcat3⟩ := hmain
    have hres2 : resolveAll ((update_host_interface_section h.hostid p.interfaces
        (get_host_interfaces r h.hostid)
        (zapiApply (zapiApply r (linkClearCall r h.hostid tids))
          (Call.hostUpdateMain h.hostid gids (statusOf p) pid))).2) p =
        .ok (tids, gids, pid) := by
      rw [resolveAll_congr _ _ p hcat1 hcat2 hcat3]
      exact hres
    obtain ⟨ht2, hg2, hp2⟩ := resolveAll_ok_inv _ p tids gids pid hres2
    -- the group parameter is non-empty and resolves to the filter form
    have hhgne : ¬p.host_groups.isEmpty = true := by
      intro hempty
      apply hgne
      unfold resolveGroups at hg
      rw [if_pos hempty] at hg
      simp only [Except.ok.injEq] at hg
      exact hg.symm
    have hgform := by
      have hgu : get_group_ids_by_group_names r p.host_groups = .ok gids := by
        unfold resolveGroups at hg
        rwa [if_neg hhgne] at hg
      exact get_group_ids_ok_form r p.host_groups gids hgu
    obtain ⟨hexist, hgfilter⟩ := hgform
    -- the five comparisons of the second run all agree
    have hdiff2 : check_all_properties ((update_host_interface_section h.hostid
        p.interfaces (get_host_interfaces r h.hostid)
        (zapiApply (zapiApply r (linkClearCall r h.hostid tids))
          (Call.hostUpdateMain h.hostid gids (statusOf p) pid))).2) h2.hostid
        p.host_groups (statusOf p) p.interfaces tids
        (get_host_interfaces ((update_host_interface_section h.hostid
          p.interfaces (get_host_interfaces r h.hostid)
          (zapiApply (zapiApply r (linkClearCall r h.hostid tids))
            (Call.hostUpdateMain h.hostid gids (statusOf p) pid))).2) h2.hostid)
        h2 pid = false := by
      have hfind2' : findHostById ((update_host_interface_section h.hostid
          p.interfaces (get_host_interfaces r h.hostid)
          (zapiApply (zapiApply r (linkClearCall r h.hostid tids))
            (Call.hostUpdateMain h.hostid gids (statusOf p) pid))).2) h2.hostid =
          some h2 := by
        rw [h2id]
        exact hfind2
      have hel2 : get_host_interfaces ((update_host_interface_section h.hostid
          p.interfaces (get_host_interfaces r h.hostid)
          (zapiApply (zapiApply r (linkClearCall r h.hostid tids))
            (Call.hostUpdateMain h.hostid gids (statusOf p) pid))).2) h2.hostid =
          h2.interfaces := by
        rw [get_host_interfaces, hfind2']
      have htempl2 : get_host_templates_by_host_id ((update_host_interface_section
          h.hostid p.interfaces (get_host_interfaces r h.hostid)
          (zapiApply (zapiApply r (linkClearCall r h.hostid tids))
            (Call.hostUpdateMain h.hostid gids (statusOf p) pid))).2) h2.hostid =
          setList tids := by
        rw [get_host_templates_by_host_id, hfind2']
        exact h2t
      refine check_all_properties_false_intro _ _ _ _ _ _ _ _ _ ?_ ?_ ?_ ?_ ?_
      · refine groups_roundtrip_sameSet _ h2.hostid h2 p.host_groups hfind2'
          ?_ ?_ ?_
        · rw [hcat1]
          exact hwf2
        · rw [h2g, hcat1, hgfilter]
        · intro n hn
          obtain ⟨q, hq, hq1⟩ := hexist n hn
          refine ⟨q, ?_, hq1⟩
          rw [hcat1]
          exact hq
      · rw [h2st]
      · rw [hel2]
        exact check_interfaces_of_fields h2.interfaces p.interfaces hports hG1 hG2
      · rw [htempl2]
        exact sameSet_setList tids
      · exact h2px
    have hrun2 := mainRun_no_diff p _ h2 tids gids pid ht2 hg2 hp2 hname2
      hstate hgne hforce hdiff2
    rw [hrun1]
    exact hrun2

/-- Witness for the amended C4: a first replace-mode run converges `h1`
(changed), and the second run on the resulting state reports
`changed=false`. -/
theorem C4_amended_replace_mode_idempotent_witness :
    Remote.wf exRemote ∧
    mainRun pC4w (mainRun pC4w exRemote).remote =
      ⟨Outcome.exited false "", [], (mainRun pC4w exRemote).remote⟩ :=
  ⟨by unfold Remote.wf; decide,
    C4_amended_replace_mode_idempotent pC4w exRemote true
      "Successfully update host h1 (10.0.0.1)" rfl rfl rfl rfl (by decide)
      (by decide) (by unfold Remote.wf; decide) rfl⟩
